import Mathlib

/-!
# Verification of the balloon/lantern swarm simulation

Shallow embedding of the swarm simulation engine (`src/simulation.js`,
two variants: the `LanternSimulation` class and the instanced hot-air
balloon script).  All numeric state is modelled over `ℚ`; the
transcendental values the code obtains from `Math.sin`, `Math.cos`,
`Math.sqrt` and `Math.random` are passed in as explicit parameters, with
their defining equations or ranges appearing as hypotheses of the
theorems.
-/

namespace Sim

/-- `THREE.MathUtils.clamp(value, min, max) = Math.max(min, Math.min(max, value))`. -/
def clampQ (v lo hi : ℚ) : ℚ := max lo (min hi v)

/-- `THREE.MathUtils.randFloat(lo, hi)` with the uniform draw `u ∈ [0,1)` explicit. -/
def randFloat (lo hi u : ℚ) : ℚ := lo + u * (hi - lo)

/-- `THREE.MathUtils.randFloatSpread(range)` = `range * (0.5 - Math.random())`,
with the draw `u` explicit. -/
def randFloatSpread (range u : ℚ) : ℚ := range * (1/2 - u)

/-!
## Frame time (both variants)

Both variants compute the per-frame time step as
`const dt = Math.min((now - lastTime) / 1000, 0.05) || 0.016;`
(lantern line 799, balloon line 2603).  `Math.min` with a NaN input
yields NaN, and `||` replaces exactly the falsy values `0`, `-0` and
`NaN` by the default.  An invalid (NaN) elapsed time is modelled as
`none`.
-/

/-- The `dt` computation of `animate`: elapsed wall-clock milliseconds in,
seconds out.  `none` models a NaN elapsed time. -/
def computeDt : Option ℚ → ℚ
  | none => 2/125
  | some e =>
    let m := min (e/1000) (1/20)
    if m = 0 then 2/125 else m


/-!
## Configuration and bounds

`CONFIG.physics`, `CONFIG.spawn`, `CONFIG.randomLight` and the derived
`bounds` object (both variants share this shape; only the numeric
values differ).
-/

/-- The tunable physics parameters (`CONFIG.physics`). -/
structure PhysicsConfig where
  gravity : ℚ
  liftStrength : ℚ
  buoyancyRiseRate : ℚ
  horizontalDrag : ℚ
  verticalDrag : ℚ
  maxVerticalSpeed : ℚ
  collisionRestitution : ℚ
  deriving DecidableEq

/-- `CONFIG.spawn`: initial-velocity ranges and initial-buoyancy factor. -/
structure SpawnConfig where
  velXSpread : ℚ
  velYMin : ℚ
  velYMax : ℚ
  velZSpread : ℚ
  maxBuoyFactor : ℚ
  deriving DecidableEq

/-- `CONFIG.randomLight`: idle-ignition rate and height threshold. -/
structure RandomLightConfig where
  rate : ℚ
  thresholdY : ℚ
  deriving DecidableEq

/-- The simulation volume derived from the camera frustum (`bounds`). -/
structure Bounds where
  yMin : ℚ
  yMax : ℚ
  ySpawnTop : ℚ
  yOffBottom : ℚ
  xVisible : ℚ
  xOff : ℚ
  zMin : ℚ
  zMax : ℚ
  deriving DecidableEq

/-- The lantern-variant `CONFIG.physics` values (lines 65-75). -/
def lanternPhysics : PhysicsConfig :=
  { gravity := -1/5, liftStrength := 6/5, buoyancyRiseRate := 401/2
    horizontalDrag := 949/1000, verticalDrag := 995/1000
    maxVerticalSpeed := 4, collisionRestitution := 3/10 }

/-- The lantern-variant `CONFIG.spawn` values (lines 78-89). -/
def lanternSpawn : SpawnConfig :=
  { velXSpread := 3/5, velYMin := -9/10, velYMax := -1/10, velZSpread := 3/5
    maxBuoyFactor := 2/5 }

/-- The lantern-variant `CONFIG.randomLight` values (lines 105-108). -/
def lanternRandomLight : RandomLightConfig := { rate := 2/25, thresholdY := 4/5 }

/-- The constructor-time `bounds` of the lantern variant (lines 177-186). -/
def lanternBounds : Bounds :=
  { yMin := -2, yMax := 14, ySpawnTop := 18, yOffBottom := -6
    xVisible := 10, xOff := 14, zMin := -8, zMax := 4 }

/-!
## Lantern instance state and reset

Per-lantern state (`lantern.userData` plus the mesh transform).  The
random wobble phases/speeds enter the step only through the evaluated
`Math.sin`/`Math.cos` values, which are explicit parameters of the step.
-/

/-- Per-instance state of the lantern variant. -/
structure LanternState where
  px : ℚ
  py : ℚ
  pz : ℚ
  vx : ℚ
  vy : ℚ
  vz : ℚ
  buoyancy : ℚ
  hovered : Bool
  decayRate : ℚ
  wAmpX : ℚ
  wAmpZ : ℚ
  rotY : ℚ
  angY : ℚ
  deriving DecidableEq

/-- The uniform draws consumed by one call to `resetLantern` /
`resetInstance` (each `Math.random()` value made explicit). -/
structure ResetDraws where
  ux : ℚ
  uy : ℚ
  uz : ℚ
  uvx : ℚ
  uvy : ℚ
  uvz : ℚ
  ub1 : ℚ
  ub2 : ℚ
  deriving DecidableEq

/-- `resetLantern(lantern, isInitial)` (lines 418-438): reseed position,
velocity and buoyancy, and clear the hovered flag. -/
def resetLantern (bd : Bounds) (sp : SpawnConfig) (d : ResetDraws)
    (isInitial : Bool) (st : LanternState) : LanternState :=
  let spawnYMin := if isInitial then bd.yOffBottom else bd.yMax + 2
  let spawnYMax := bd.ySpawnTop
  { st with
    px := randFloatSpread (bd.xVisible * 2) d.ux
    py := randFloat spawnYMin spawnYMax d.uy
    pz := randFloat bd.zMin bd.zMax d.uz
    vx := randFloatSpread sp.velXSpread d.uvx
    vy := randFloat sp.velYMin sp.velYMax d.uvy
    vz := randFloatSpread sp.velZSpread d.uvz
    buoyancy := d.ub1 * d.ub2 * sp.maxBuoyFactor
    hovered := false }

/-!
## Per-frame buoyancy update

Lines 820-837 of `updateLanterns`; the balloon variant's
`applyOrbInfluence` (lines 2512-2519) performs the identical
rise/decay, idle-ignition and clamp sequence, so both are embedded by
this one function.  `igniteDraw` is the `Math.random()` value of the
idle-ignition test.
-/

/-- One per-frame buoyancy update for an instance at height `py` with
previous buoyancy `b0`. -/
def buoyancyStep (ph : PhysicsConfig) (rl : RandomLightConfig) (bd : Bounds)
    (hovered : Bool) (py decayRate b0 igniteDraw dt : ℚ) : ℚ :=
  let b1 := if hovered then b0 + ph.buoyancyRiseRate * dt
            else if b0 > 0 then b0 - decayRate * dt
            else b0
  let b2 := if ¬hovered ∧ b1 ≤ 1/100 ∧ py < bd.yMax * rl.thresholdY ∧
               igniteDraw < rl.rate * dt
            then 1 else b1
  clampQ b2 0 1

/-!
## Lantern integration step

`updateLanterns` (lines 812-896), decomposed exactly as the source
orders it: buoyancy update, forces, wobble, drag, vertical-speed clamp,
position/rotation integration (`lanternIntegrate`), then the recycle
check (`lanternRecycle`), then the depth-wall bounce (`depthContain`).
Vertex-color and material writes are rendering output and carry no
simulation state.
-/

/-- Buoyancy, forces, wobble, drag, clamp, and position/rotation
integration (lines 820-866).  `sinX`/`cosZ` are the evaluated
`Math.sin(time*speedX+phaseX)` and `Math.cos(time*speedZ+phaseZ)`. -/
def lanternIntegrate (ph : PhysicsConfig) (rl : RandomLightConfig) (bd : Bounds)
    (sinX cosZ igniteDraw dt : ℚ) (st : LanternState) : LanternState :=
  let b := buoyancyStep ph rl bd st.hovered st.py st.decayRate st.buoyancy igniteDraw dt
  let ay := ph.gravity + ph.liftStrength * b
  let vy1 := st.vy + ay * dt
  let vx1 := st.vx + sinX * st.wAmpX * dt
  let vz1 := st.vz + cosZ * st.wAmpZ * dt
  let vx2 := vx1 * ph.horizontalDrag
  let vy2 := vy1 * ph.verticalDrag
  let vz2 := vz1 * ph.horizontalDrag
  let vy3 := clampQ vy2 (-ph.maxVerticalSpeed) ph.maxVerticalSpeed
  { st with
    buoyancy := b
    vx := vx2, vy := vy3, vz := vz2
    px := st.px + vx2 * dt
    py := st.py + vy3 * dt
    pz := st.pz + vz2 * dt
    rotY := st.rotY + st.angY * dt }

/-- The recycle-volume test shared by both variants
(lines 869-874 and 2562-2567). -/
def outOfVolumeAt (bd : Bounds) (px py : ℚ) : Prop :=
  py < bd.yOffBottom ∨ py > bd.ySpawnTop ∨ px < -bd.xOff ∨ px > bd.xOff

instance (bd : Bounds) (px py : ℚ) : Decidable (outOfVolumeAt bd px py) := by
  unfold outOfVolumeAt; infer_instance

/-- Recycle a lantern if out of bounds (lines 869-876). -/
def lanternRecycle (bd : Bounds) (sp : SpawnConfig) (rd : ResetDraws)
    (st : LanternState) : LanternState :=
  if outOfVolumeAt bd st.px st.py then resetLantern bd sp rd false st else st

/-- The depth-wall bounce (lines 879-885 of `updateLanterns`, and
identically lines 2571-2577 of the balloon `updatePhysics`): clamp `z`
to the violated bound and reflect the z-velocity, damped by `0.6`.
Returns the new `(z, vz)`. -/
def depthContain (zMin zMax pz vz : ℚ) : ℚ × ℚ :=
  if pz < zMin then (zMin, |vz| * (3/5))
  else if pz > zMax then (zMax, -|vz| * (3/5))
  else (pz, vz)

/-- One complete `updateLanterns` pass for a single lantern. -/
def updateLanternStep (ph : PhysicsConfig) (rl : RandomLightConfig) (bd : Bounds)
    (sp : SpawnConfig) (sinX cosZ igniteDraw : ℚ) (rd : ResetDraws) (dt : ℚ)
    (st : LanternState) : LanternState :=
  let st2 := lanternRecycle bd sp rd (lanternIntegrate ph rl bd sinX cosZ igniteDraw dt st)
  let zc := depthContain bd.zMin bd.zMax st2.pz st2.vz
  { st2 with pz := zc.1, vz := zc.2 }

/-!
## Pairwise collision resolution (lantern variant)

`handleCollisions` (lines 513-571).  The inner loop body for one pair
`(a, b)` is embedded as `resolvePair`.  `dist` is the value the code
obtains from `Math.sqrt(distSq)`; theorems about `resolvePair` carry
the hypotheses `0 ≤ dist` and `dist * dist = distSq`.
`minDist = 2 * collisionRadius` and `e = CONFIG.physics.collisionRestitution`.
-/

/-- The positions and velocities of one pair of lanterns. -/
structure PairState where
  pax : ℚ
  pay : ℚ
  paz : ℚ
  vax : ℚ
  vay : ℚ
  vaz : ℚ
  pbx : ℚ
  pby : ℚ
  pbz : ℚ
  vbx : ℚ
  vby : ℚ
  vbz : ℚ
  deriving DecidableEq

/-- Squared distance between the pair's positions. -/
def sep2 (s : PairState) : ℚ :=
  (s.pbx - s.pax) * (s.pbx - s.pax) + (s.pby - s.pay) * (s.pby - s.pay) +
    (s.pbz - s.paz) * (s.pbz - s.paz)

/-- One pair iteration of `handleCollisions` (lines 523-569). -/
def resolvePair (minDist e dist : ℚ) (s : PairState) : PairState :=
  let dx := s.pbx - s.pax
  let dy := s.pby - s.pay
  let dz := s.pbz - s.paz
  let distSq := dx * dx + dy * dy + dz * dz
  if distSq = 0 ∨ distSq > minDist * minDist then s
  else
    let overlap := minDist - dist
    if overlap ≤ 0 then s
    else
      let nx := dx / dist
      let ny := dy / dist
      let nz := dz / dist
      let half := overlap * (1/2)
      let s1 : PairState :=
        { s with
          pax := s.pax - nx * half, pay := s.pay - ny * half, paz := s.paz - nz * half
          pbx := s.pbx + nx * half, pby := s.pby + ny * half, pbz := s.pbz + nz * half }
      let rvx := s.vbx - s.vax
      let rvy := s.vby - s.vay
      let rvz := s.vbz - s.vaz
      let velAlongNormal := rvx * nx + rvy * ny + rvz * nz
      if velAlongNormal > 0 then s1
      else
        let j := -(1 + e) * velAlongNormal * (1/2)
        let ix := j * nx
        let iy := j * ny
        let iz := j * nz
        { s1 with
          vax := s.vax - ix, vay := s.vay - iy, vaz := s.vaz - iz
          vbx := s.vbx + ix, vby := s.vby + iy, vbz := s.vbz + iz }

/-- `this.collisionRadius = Math.max(width * flareFactor, height) * 0.35`
with the lantern geometry config (line 306): `max(0.6*1.3, 1.0)*0.35`. -/
def lanternCollisionRadius : ℚ := max (3/5 * (13/10)) 1 * (7/20)

/-- A `PairState` assembled from two lantern states, as `handleCollisions`
reads `lanterns[i].position` / `.userData.velocity`. -/
def pairOfLanterns (a b : LanternState) : PairState :=
  ⟨a.px, a.py, a.pz, a.vx, a.vy, a.vz, b.px, b.py, b.pz, b.vx, b.vy, b.vz⟩

/-!
## Balloon variant: instance store, reset and physics step

The instanced hot-air-balloon script (second source file region).  The
per-instance typed arrays `posX..iSeed` become fields of
`BalloonState`.  `resetInstance` (lines 1645-1682) rerolls everything;
every `Math.random()` draw is a field of `ResetDrawsB`, where draws
that the code multiplies by `2π` are passed as the already evaluated
product (`rotDraw`, `phXDraw`, `phZDraw`).
-/

/-- `CONFIG.wobble` ranges. -/
structure WobbleConfig where
  ampXMin : ℚ
  ampXMax : ℚ
  ampZMin : ℚ
  ampZMax : ℚ
  spdXMin : ℚ
  spdXMax : ℚ
  spdZMin : ℚ
  spdZMax : ℚ
  deriving DecidableEq

/-- `CONFIG.physics` decay parameters (`buoyancyDecayRate`,
`buoyancyDecayVariance`), used by the balloon `resetInstance`. -/
structure DecayConfig where
  base : ℚ
  varMin : ℚ
  varMax : ℚ
  deriving DecidableEq

/-- Per-instance state of the balloon variant (the typed-array slots
for one index `i`).  `tintIdx` records which entry of
`REAL_BALLOON_PALETTE` was drawn by `randomVibrantTint`. -/
structure BalloonState where
  px : ℚ
  py : ℚ
  pz : ℚ
  vx : ℚ
  vy : ℚ
  vz : ℚ
  rotY : ℚ
  angY : ℚ
  buoyancy : ℚ
  decayRate : ℚ
  wAmpX : ℚ
  wAmpZ : ℚ
  wSpdX : ℚ
  wSpdZ : ℚ
  wPhX : ℚ
  wPhZ : ℚ
  tintIdx : ℤ
  patternType : ℚ
  seed : ℚ
  deriving DecidableEq

/-- The uniform draws consumed by one call of the balloon
`resetInstance`.  `rotDraw`, `phXDraw`, `phZDraw` are the evaluated
values of `Math.random() * Math.PI * 2`. -/
structure ResetDrawsB where
  ux : ℚ
  uy : ℚ
  uz : ℚ
  uvx : ℚ
  uvy : ℚ
  uvz : ℚ
  ub1 : ℚ
  ub2 : ℚ
  rotDraw : ℚ
  uang : ℚ
  udecay : ℚ
  uwax : ℚ
  uwaz : ℚ
  uwsx : ℚ
  uwsz : ℚ
  phXDraw : ℚ
  phZDraw : ℚ
  utint : ℚ
  upat : ℚ
  useed : ℚ
  deriving DecidableEq

/-- `resetInstance(i, isInitial)` (lines 1645-1682). -/
def resetInstance (bd : Bounds) (sp : SpawnConfig) (dc : DecayConfig)
    (wc : WobbleConfig) (d : ResetDrawsB) (isInitial : Bool)
    (st : BalloonState) : BalloonState :=
  let spawnYMin := if isInitial then bd.yOffBottom else bd.yMax + 2
  let spawnYMax := bd.ySpawnTop
  { st with
    px := randFloatSpread (bd.xVisible * 2) d.ux
    py := randFloat spawnYMin spawnYMax d.uy
    pz := randFloat bd.zMin bd.zMax d.uz
    vx := randFloatSpread sp.velXSpread d.uvx
    vy := randFloat sp.velYMin sp.velYMax d.uvy
    vz := randFloatSpread sp.velZSpread d.uvz
    buoyancy := d.ub1 * d.ub2 * sp.maxBuoyFactor
    rotY := d.rotDraw
    angY := randFloatSpread (9/20) d.uang
    decayRate := dc.base * randFloat dc.varMin dc.varMax d.udecay
    wAmpX := randFloat wc.ampXMin wc.ampXMax d.uwax
    wAmpZ := randFloat wc.ampZMin wc.ampZMax d.uwaz
    wSpdX := randFloat wc.spdXMin wc.spdXMax d.uwsx
    wSpdZ := randFloat wc.spdZMin wc.spdZMax d.uwsz
    wPhX := d.phXDraw
    wPhZ := d.phZDraw
    tintIdx := ⌊d.utint * 13⌋
    patternType := if d.upat < 18/25 then 0 else if d.upat < 23/25 then 1 else 2
    seed := d.useed * 1000 }

/-- The balloon-variant `CONFIG.physics` values (lines 1146-1168;
`collisionRestitution` does not exist there and is recorded as 0). -/
def balloonPhysics : PhysicsConfig :=
  { gravity := -4/25, liftStrength := 27/20, buoyancyRiseRate := 520
    horizontalDrag := 957/1000, verticalDrag := 994/1000
    maxVerticalSpeed := 28/5, collisionRestitution := 0 }

/-- The balloon-variant `CONFIG.spawn` values (lines 1181-1194). -/
def balloonSpawn : SpawnConfig :=
  { velXSpread := 3/4, velYMin := -12/25, velYMax := -3/50, velZSpread := 3/4
    maxBuoyFactor := 1/10 }

/-- The balloon-variant `CONFIG.randomLight` values (lines 1196-1206). -/
def balloonRandomLight : RandomLightConfig := { rate := 3/2000, thresholdY := 9/10 }

/-- The initial `bounds` literal of the balloon variant (lines 1521-1530). -/
def balloonBounds : Bounds :=
  { yMin := -2, yMax := 14, ySpawnTop := 18, yOffBottom := -6
    xVisible := 10, xOff := 14, zMin := -18, zMax := 10 }

/-- Velocity/position integration of the balloon `updatePhysics`
(lines 2546-2560). -/
def balloonIntegrate (ph : PhysicsConfig) (sinX cosZ dt : ℚ)
    (st : BalloonState) : BalloonState :=
  let b := st.buoyancy
  let vy1 := st.vy + (ph.gravity + ph.liftStrength * b) * dt
  let vx1 := st.vx + sinX * st.wAmpX * dt
  let vz1 := st.vz + cosZ * st.wAmpZ * dt
  let vx2 := vx1 * ph.horizontalDrag
  let vy2 := vy1 * ph.verticalDrag
  let vz2 := vz1 * ph.horizontalDrag
  let vy3 := clampQ vy2 (-ph.maxVerticalSpeed) ph.maxVerticalSpeed
  { st with
    vx := vx2, vy := vy3, vz := vz2
    px := st.px + vx2 * dt
    py := st.py + vy3 * dt
    pz := st.pz + vz2 * dt
    rotY := st.rotY + st.angY * dt }

/-- Recycle a balloon if out of bounds (lines 2562-2569). -/
def balloonRecycle (bd : Bounds) (sp : SpawnConfig) (dc : DecayConfig)
    (wc : WobbleConfig) (rd : ResetDrawsB) (st : BalloonState) : BalloonState :=
  if outOfVolumeAt bd st.px st.py then resetInstance bd sp dc wc rd false st else st

/-- One complete `updatePhysics` pass for a single balloon
(lines 2540-2580): integrate, recycle check, depth-wall bounce. -/
def updatePhysicsStep (ph : PhysicsConfig) (bd : Bounds) (sp : SpawnConfig)
    (dc : DecayConfig) (wc : WobbleConfig) (sinX cosZ : ℚ) (rd : ResetDrawsB)
    (dt : ℚ) (st : BalloonState) : BalloonState :=
  let st2 := balloonRecycle bd sp dc wc rd (balloonIntegrate ph sinX cosZ dt st)
  let zc := depthContain bd.zMin bd.zMax st2.pz st2.vz
  { st2 with pz := zc.1, vz := zc.2 }

/-!
## Interaction orbs (balloon variant)

Orb slot pool of lines 2041-2108: `MAX_ORBS` fixed slots holding a raw
target, a smoothed position, a strength and a time-to-live.  The slot
arrays are modelled as total functions `ℕ → _` whose entries beyond
`MAX_ORBS` are never written.
-/

/-- A 3-component vector (`THREE.Vector3` as pure data). -/
structure Vec3 where
  x : ℚ
  y : ℚ
  z : ℚ
  deriving DecidableEq

/-- `Vector3.lengthSq()`. -/
def lengthSq (v : Vec3) : ℚ := v.x * v.x + v.y * v.y + v.z * v.z

/-- `Vector3.lerp(v, alpha)`: `this += (v - this) * alpha`, componentwise. -/
def lerpVec (a b : Vec3) (alpha : ℚ) : Vec3 :=
  ⟨a.x + (b.x - a.x) * alpha, a.y + (b.y - a.y) * alpha, a.z + (b.z - a.z) * alpha⟩

/-- `MAX_ORBS = 1 + maxPeople*2 + maxHands*5` with `maxPeople = maxHands = 4`
(lines 2041-2045). -/
def MAX_ORBS : ℕ := 1 + 4 * 2 + 4 * 5

/-- The orb slot pool (`orbTargets`, `orbPositions`, `orbBuoy`, `orbTTL`). -/
structure OrbState where
  target : ℕ → Vec3
  posn : ℕ → Vec3
  strength : ℕ → ℚ
  ttl : ℕ → ℚ

/-- `setOrb(slot, worldPos, strength)` (lines 2093-2102).  `maxTTL` is
`CONFIG.interaction.orbMaxTTL`. -/
def setOrb (maxTTL : ℚ) (st : OrbState) (slot : ℤ) (worldPos : Vec3)
    (strength : ℚ) : OrbState :=
  if slot < 0 ∨ (MAX_ORBS : ℤ) ≤ slot then st
  else
    let s := slot.toNat
    { target := fun j => if j = s then worldPos else st.target j
      posn := fun j =>
        if j = s then
          (if lengthSq (st.posn s) < 1/1000000 then worldPos else st.posn j)
        else st.posn j
      strength := fun j => if j = s then strength else st.strength j
      ttl := fun j => if j = s then max (1/100) maxTTL else st.ttl j }

/-- `smoothOrbs(alpha)` (lines 2104-2108): lerp every live slot's
smoothed position toward its target. -/
def smoothOrbs (alpha : ℚ) (st : OrbState) : OrbState :=
  { st with
    posn := fun j =>
      if j < MAX_ORBS ∧ 0 < st.ttl j then lerpVec (st.posn j) (st.target j) alpha
      else st.posn j }

/-- The exponent of the per-frame smoothing factor computed in the main
loop (line 2629): `Math.max(1, dt * 60)`; the factor itself is
`alpha = 1 - (1 - orbSmoothing) ^ smoothExponent dt`. -/
def smoothExponent (dt : ℚ) : ℚ := max 1 (dt * 60)

/-- The exponent the specification prescribes for the smoothing factor
(`alpha = 1 - (1 - smoothingRate)^(dt × referenceFrameRate)`, reference
frame rate 60).  Stated from the spec's words, for comparison with the
code's `smoothExponent`. -/
def smoothExponentSpec (dt : ℚ) : ℚ := dt * 60

/-!
## Screen-space hover test (balloon variant)

The screen-space branch of `applyOrbInfluence` (lines 2476-2496).  The
camera projection (`worldToNDC`) is external input; the test consumes
the already-projected NDC triples of the balloon and of every orb's
smoothed position.
-/

/-- A normalized-device-coordinate triple produced by
`worldToNDC` (`project(camera)`). -/
structure Ndc where
  x : ℚ
  y : ℚ
  z : ℚ
  deriving DecidableEq

/-- One orb as seen by the hover loop: its time-to-live and the NDC
projection of its smoothed position. -/
structure OrbNdc where
  ttl : ℚ
  ndc : Ndc
  deriving DecidableEq

/-- The clip-range acceptance test applied to both the balloon
(`tmpNdcB.z >= -1 && tmpNdcB.z <= 1`, line 2480) and each orb
(skip when `tmpNdcO.z < -1 || tmpNdcO.z > 1`, line 2486). -/
def clipOK (p : Ndc) : Prop := -1 ≤ p.z ∧ p.z ≤ 1

instance (p : Ndc) : Decidable (clipOK p) := by
  unfold clipOK; infer_instance

/-- The effective screen-space hover radius: `THREE.MathUtils.clamp(
screenRadiusNDC, screenRadiusMin, screenRadiusMax)` (lines 2446-2450). -/
def effectiveScreenRadius (cfgR rMin rMax : ℚ) : ℚ := clampQ cfgR rMin rMax

/-- The screen-space hover decision for one balloon (lines 2480-2496):
clip-accepted, and some live, clip-accepted orb is within squared 2D
NDC distance `rNSq`. -/
def screenHovered (rNSq : ℚ) (b : Ndc) (orbs : List OrbNdc) : Bool :=
  decide (clipOK b) &&
    orbs.any fun o =>
      decide (0 < o.ttl) && decide (clipOK o.ndc) &&
        decide ((b.x - o.ndc.x) * (b.x - o.ndc.x) +
          (b.y - o.ndc.y) * (b.y - o.ndc.y) < rNSq)

/-- The buoyancy part of `applyOrbInfluence` for one balloon in
screen-space mode (lines 2476-2521): decide hover, then rise/decay,
idle ignition and clamp exactly as `buoyancyStep`. -/
def applyOrbInfluenceStep (ph : PhysicsConfig) (rl : RandomLightConfig)
    (bd : Bounds) (rNSq : ℚ) (bNdc : Ndc) (orbs : List OrbNdc)
    (igniteDraw dt : ℚ) (st : BalloonState) : BalloonState :=
  let hovered := screenHovered rNSq bNdc orbs
  { st with
    buoyancy := buoyancyStep ph rl bd hovered st.py st.decayRate st.buoyancy
      igniteDraw dt }

/-!
## Pattern generator (lantern variant)

`applyPatternColor` (lines 473-507).  JavaScript's `%` is the truncated
remainder (sign of the dividend), embedded as `jsRem`; `Math.floor` is
`Int.floor`.
-/

/-- An RGB color with components in `[0,1]` (`THREE.Color` as data). -/
structure Color where
  r : ℚ
  g : ℚ
  b : ℚ
  deriving DecidableEq

/-- The fallback `0xffffff`. -/
def whiteColor : Color := ⟨1, 1, 1⟩

/-- The discrete pattern types (`CONFIG.patterns.types`). -/
inductive PatternType where
  | checker
  | horizontal
  | diagonal
  deriving DecidableEq

/-- A per-lantern pattern descriptor (`lantern.userData.pattern`). -/
structure Pattern where
  type : PatternType
  palette : List Color
  stripes : ℚ
  cellsY : ℚ
  cellsA : ℚ
  deriving DecidableEq

/-- JavaScript's `%` on integers: remainder with the sign of the
dividend. -/
def jsRem (a b : ℤ) : ℤ := if 0 ≤ a then a % b else -((-a) % b)

/-- The branch-computed `idx` of `applyPatternColor` (lines 487-504),
for a vertex with height factor `h` and angle factor `a`. -/
def patternRawIdx (p : Pattern) (density h a : ℚ) : ℤ :=
  let len : ℤ := p.palette.length
  match p.type with
  | .checker => jsRem (⌊h * p.cellsY * density⌋ + ⌊a * p.cellsA * density⌋) len
  | .horizontal => jsRem ⌊h * p.stripes * density⌋ len
  | .diagonal => jsRem ⌊(h + a) * p.stripes * density⌋ len

/-- The final palette index `(idx + len) % len` (line 506). -/
def patternFinalIdx (p : Pattern) (density h a : ℚ) : ℤ :=
  let len : ℤ := p.palette.length
  jsRem (patternRawIdx p density h a + len) len

/-- `applyPatternColor` (lines 473-507): white for an empty or missing
palette, else the palette entry at the wrapped index. -/
def applyPatternColor (p : Pattern) (density h a : ℚ) : Color :=
  if p.palette.length = 0 then whiteColor
  else p.palette.getD (patternFinalIdx p density h a).toNat whiteColor

/-!
## Sample and counterexample values used by the theorems below
-/

/-- A sample orb pool: every slot holds target `(1,2,3)`, smoothed
position at the origin, strength 1, ttl `0.1`. -/
def sampleOrbState : OrbState :=
  { target := fun _ => ⟨1, 2, 3⟩
    posn := fun _ => ⟨0, 0, 0⟩
    strength := fun _ => 1
    ttl := fun _ => 1/10 }

/-- A sample three-color diagonal pattern descriptor. -/
def samplePattern : Pattern :=
  { type := .diagonal
    palette := [⟨1, 0, 0⟩, ⟨0, 1, 0⟩, ⟨0, 0, 1⟩]
    stripes := 9, cellsY := 6, cellsA := 8 }

/-- The balloon-variant `CONFIG.physics` decay values (lines 1158-1160). -/
def balloonDecay : DecayConfig := { base := 13/20, varMin := 13/20, varMax := 31/20 }

/-- The balloon-variant `CONFIG.wobble` ranges (lines 1170-1179). -/
def balloonWobble : WobbleConfig :=
  { ampXMin := 9/50, ampXMax := 11/20, ampZMin := 4/25, ampZMax := 1/2
    spdXMin := 1/4, spdXMax := 17/20, spdZMin := 1/4, spdZMax := 17/20 }

/-- A sample lantern in a generic mid-air configuration. -/
def sampleLantern : LanternState :=
  { px := 0, py := 0, pz := 0, vx := 0, vy := 0, vz := 0
    buoyancy := 1/2, hovered := true, decayRate := 2/5
    wAmpX := 1/2, wAmpZ := 2/5, rotY := 0, angY := 1/10 }

/-- A sample balloon in a generic mid-air configuration. -/
def sampleBalloon : BalloonState :=
  { px := 0, py := 0, pz := 0, vx := 0, vy := 0, vz := 0
    rotY := 0, angY := 1/10, buoyancy := 1/2, decayRate := 13/20
    wAmpX := 1/4, wAmpZ := 1/4, wSpdX := 1/2, wSpdZ := 1/2
    wPhX := 0, wPhZ := 0, tintIdx := 0, patternType := 0, seed := 1/2 }

/-- Uniform lantern reset draws, all at `1/2`. -/
def sampleDrawsL : ResetDraws := ⟨1/2, 1/2, 1/2, 1/2, 1/2, 1/2, 1/2, 1/2⟩

/-- Uniform balloon reset draws, all at `1/2`. -/
def sampleDrawsB : ResetDrawsB :=
  ⟨1/2, 1/2, 1/2, 1/2, 1/2, 1/2, 1/2, 1/2, 1/2, 1/2,
    1/2, 1/2, 1/2, 1/2, 1/2, 1/2, 1/2, 1/2, 1/2, 1/2⟩

/-- A single live sample orb at the NDC origin. -/
def sampleOrbs : List OrbNdc := [⟨1/10, ⟨0, 0, 0⟩⟩]

/-- A lantern about to cross the near depth wall (`z = -20 < zMin`). -/
def depthLantern : LanternState :=
  { px := 0, py := 0, pz := -20, vx := 0, vy := 0, vz := -2
    buoyancy := 0, hovered := false, decayRate := 2/5
    wAmpX := 1, wAmpZ := 1, rotY := 0, angY := 0 }

/-- A balloon about to cross the far depth wall (`z = 20 > zMax`). -/
def depthBalloon : BalloonState :=
  { px := 0, py := 0, pz := 20, vx := 0, vy := 0, vz := 2
    rotY := 0, angY := 0, buoyancy := 0, decayRate := 13/20
    wAmpX := 1/4, wAmpZ := 1/4, wSpdX := 1/2, wSpdZ := 1/2
    wPhX := 0, wPhZ := 0, tintIdx := 0, patternType := 0, seed := 1/2 }

/-- A lantern far above the spawn ceiling (it will recycle this frame). -/
def recycleLantern : LanternState :=
  { px := 0, py := 100, pz := 0, vx := 0, vy := 0, vz := 0
    buoyancy := 0, hovered := true, decayRate := 2/5
    wAmpX := 1, wAmpZ := 1, rotY := 0, angY := 0 }

/-- A balloon far above the spawn ceiling (it will recycle this frame). -/
def recycleBalloon : BalloonState :=
  { px := 0, py := 100, pz := 0, vx := 0, vy := 0, vz := 0
    rotY := 0, angY := 0, buoyancy := 0, decayRate := 13/20
    wAmpX := 1/4, wAmpZ := 1/4, wSpdX := 1/2, wSpdZ := 1/2
    wPhX := 0, wPhZ := 0, tintIdx := 0, patternType := 0, seed := 1/2 }

/-- First lantern of the C2 counterexample frame. -/
def cexA : LanternState :=
  { px := 4/25, py := -248551/3906250, pz := 0, vx := -10000/949, vy := 4, vz := 0
    buoyancy := 0, hovered := false, decayRate := 2/5
    wAmpX := 1, wAmpZ := 1, rotY := 0, angY := 0 }

/-- Second lantern of the C2 counterexample frame. -/
def cexB : LanternState :=
  { px := -3/10, py := 1313949/3906250, pz := 0, vx := 0, vy := 4, vz := 0
    buoyancy := 0, hovered := false, decayRate := 2/5
    wAmpX := 1, wAmpZ := 1, rotY := 0, angY := 0 }

/-- `cexA` after the integration pass of the frame. -/
def cexA1 : LanternState :=
  updateLanternStep lanternPhysics lanternRandomLight lanternBounds lanternSpawn
    0 0 (1/2) sampleDrawsL (2/125) cexA

/-- `cexB` after the integration pass of the frame. -/
def cexB1 : LanternState :=
  updateLanternStep lanternPhysics lanternRandomLight lanternBounds lanternSpawn
    0 0 (1/2) sampleDrawsL (2/125) cexB

/-- The pair after the collision pass that ends the frame
(`animate` runs `updateLanterns` then `handleCollisions`). -/
def cexPair : PairState :=
  resolvePair (lanternCollisionRadius * 2) lanternPhysics.collisionRestitution (1/2)
    (pairOfLanterns cexA1 cexB1)

/-- The relative velocity along the unit separation normal
(`velAlongNormal`, line 554). -/
def relVelAlongNormal (dist : ℚ) (s : PairState) : ℚ :=
  (s.vbx - s.vax) * ((s.pbx - s.pax) / dist) +
    (s.vby - s.vay) * ((s.pby - s.pay) / dist) +
    (s.vbz - s.vaz) * ((s.pbz - s.paz) / dist)

/-- The pair after the positional correction (lines 539-549): each
endpoint pushed half the overlap along the unit normal. -/
def pairCorrected (minDist dist : ℚ) (s : PairState) : PairState :=
  let nx := (s.pbx - s.pax) / dist
  let ny := (s.pby - s.pay) / dist
  let nz := (s.pbz - s.paz) / dist
  let half := (minDist - dist) * (1/2)
  { s with
    pax := s.pax - nx * half, pay := s.pay - ny * half, paz := s.paz - nz * half
    pbx := s.pbx + nx * half, pby := s.pby + ny * half, pbz := s.pbz + nz * half }

/-- The pair after positional correction and the velocity impulse
(lines 558-568). -/
def pairImpulsed (minDist e dist : ℚ) (s : PairState) : PairState :=
  let nx := (s.pbx - s.pax) / dist
  let ny := (s.pby - s.pay) / dist
  let nz := (s.pbz - s.paz) / dist
  let j := -(1 + e) * relVelAlongNormal dist s * (1/2)
  { pairCorrected minDist dist s with
    vax := s.vax - j * nx, vay := s.vay - j * ny, vaz := s.vaz - j * nz
    vbx := s.vbx + j * nx, vby := s.vby + j * ny, vbz := s.vbz + j * nz }

/-- The C3 witness pair: `a` at the origin moving left, `b` up-left of
it at distance `1/2 < 0.7 = 2·collisionRadius`, at rest — an
approaching overlapping pair. -/
def witnessPair : PairState :=
  ⟨0, 0, 0, -1, 0, 0, -3/10, 2/5, 0, 0, 0, 0⟩

/-!
## Helper lemmas
-/

theorem le_clampQ (v lo hi : ℚ) : lo ≤ clampQ v lo hi := le_max_left _ _

theorem clampQ_le (v : ℚ) {lo hi : ℚ} (h : lo ≤ hi) : clampQ v lo hi ≤ hi :=
  max_le h (min_le_left _ _)

theorem clampQ_unit (x : ℚ) : 0 ≤ clampQ x 0 1 ∧ clampQ x 0 1 ≤ 1 :=
  ⟨le_clampQ _ _ _, clampQ_le _ (by norm_num)⟩

theorem randFloat_mem {lo hi u : ℚ} (h : lo ≤ hi) (h0 : 0 ≤ u) (h1 : u ≤ 1) :
    lo ≤ randFloat lo hi u ∧ randFloat lo hi u ≤ hi := by
  unfold randFloat
  constructor <;> nlinarith

theorem jsRem_bounds (a : ℤ) {b : ℤ} (hb : 0 < b) :
    -b < jsRem a b ∧ jsRem a b < b := by
  unfold jsRem
  split
  · refine ⟨lt_of_lt_of_le (by linarith) (Int.emod_nonneg a (by omega)), Int.emod_lt_of_pos a hb⟩
  · have h1 : 0 ≤ (-a) % b := Int.emod_nonneg (-a) (by omega)
    have h2 : (-a) % b < b := Int.emod_lt_of_pos (-a) hb
    omega

theorem jsRem_of_nonneg {a b : ℤ} (ha : 0 ≤ a) (hb : 0 < b) :
    0 ≤ jsRem a b ∧ jsRem a b < b := by
  unfold jsRem
  rw [if_pos ha]
  exact ⟨Int.emod_nonneg a (by omega), Int.emod_lt_of_pos a hb⟩

theorem patternRawIdx_bounds (p : Pattern) (density h a : ℚ)
    (hlen : 0 < (p.palette.length : ℤ)) :
    -(p.palette.length : ℤ) < patternRawIdx p density h a ∧
      patternRawIdx p density h a < p.palette.length := by
  unfold patternRawIdx
  cases p.type <;> exact jsRem_bounds _ hlen

/-!
## C6 — frame-time substitution (corrected)

The claim: zero, negative or absurdly large elapsed time is replaced by
a default/clamped step, so the dt handed to the integrator is always a
valid positive value bounded by 0.05.  The code replaces only the falsy
values (`0`, `NaN`) and caps large values; a *negative* elapsed time
passes through unchanged as a negative dt.
-/

/-- C6 counterexample: at a real elapsed time of `-1000` ms the code's
dt is `-1` second — the raw negative value, not a positive default. -/
theorem frame_time_negative_cex :
    computeDt (some (-1000)) = -1 ∧ computeDt (some (-1000)) < 0 := by
  norm_num [computeDt]

/-- C6 (amended): the dt of `animate` never exceeds `0.05`; a zero or
NaN elapsed time is replaced by the default `0.016`; a positive elapsed
time yields a positive dt; but a negative elapsed time yields the raw
(negative) `elapsed/1000`. -/
theorem frame_time_clamped (e : ℚ) :
    computeDt none = 2/125 ∧
    computeDt (some 0) = 2/125 ∧
    computeDt (some e) ≤ 1/20 ∧
    (0 < e → 0 < computeDt (some e)) ∧
    (e < 0 → computeDt (some e) = e/1000) := by
  refine ⟨by norm_num [computeDt], by norm_num [computeDt], ?_, ?_, ?_⟩
  · unfold computeDt
    dsimp only
    split
    · norm_num
    · exact min_le_right _ _
  · intro he
    unfold computeDt
    dsimp only
    split
    · norm_num
    · rename_i hm
      rcases lt_or_le (e/1000) (1/20) with h | h
      · rw [min_eq_left h.le] at hm ⊢
        positivity
      · rw [min_eq_right h] at hm ⊢
        norm_num
  · intro he
    have hm : min (e/1000) (1/20) = e/1000 := min_eq_left (by linarith)
    have hne : e/1000 ≠ 0 := by
      intro h0
      have : e = 0 := by linarith [(div_eq_zero_iff.mp h0)]
      linarith
    unfold computeDt
    dsimp only
    rw [hm, if_neg hne]

/-- C6 witness: the amended statement evaluated at elapsed = 16 ms,
with the positivity premise discharged concretely. -/
theorem frame_time_clamped_witness :
    computeDt none = 2/125 ∧
    computeDt (some 0) = 2/125 ∧
    computeDt (some 16) ≤ 1/20 ∧
    0 < computeDt (some 16) :=
  ⟨(frame_time_clamped 16).1, (frame_time_clamped 16).2.1,
    (frame_time_clamped 16).2.2.1, (frame_time_clamped 16).2.2.2.1 (by norm_num)⟩


/-!
## Projection lemmas (all definitional)
-/

theorem updateLanternStep_vy (ph : PhysicsConfig) (rl : RandomLightConfig)
    (bd : Bounds) (sp : SpawnConfig) (sinX cosZ ig : ℚ) (rd : ResetDraws)
    (dt : ℚ) (st : LanternState) :
    (updateLanternStep ph rl bd sp sinX cosZ ig rd dt st).vy =
      (lanternRecycle bd sp rd (lanternIntegrate ph rl bd sinX cosZ ig dt st)).vy := rfl

theorem updateLanternStep_py (ph : PhysicsConfig) (rl : RandomLightConfig)
    (bd : Bounds) (sp : SpawnConfig) (sinX cosZ ig : ℚ) (rd : ResetDraws)
    (dt : ℚ) (st : LanternState) :
    (updateLanternStep ph rl bd sp sinX cosZ ig rd dt st).py =
      (lanternRecycle bd sp rd (lanternIntegrate ph rl bd sinX cosZ ig dt st)).py := rfl

theorem updateLanternStep_hovered (ph : PhysicsConfig) (rl : RandomLightConfig)
    (bd : Bounds) (sp : SpawnConfig) (sinX cosZ ig : ℚ) (rd : ResetDraws)
    (dt : ℚ) (st : LanternState) :
    (updateLanternStep ph rl bd sp sinX cosZ ig rd dt st).hovered =
      (lanternRecycle bd sp rd (lanternIntegrate ph rl bd sinX cosZ ig dt st)).hovered := rfl

theorem updateLanternStep_pz (ph : PhysicsConfig) (rl : RandomLightConfig)
    (bd : Bounds) (sp : SpawnConfig) (sinX cosZ ig : ℚ) (rd : ResetDraws)
    (dt : ℚ) (st : LanternState) :
    (updateLanternStep ph rl bd sp sinX cosZ ig rd dt st).pz =
      (depthContain bd.zMin bd.zMax
        (lanternRecycle bd sp rd (lanternIntegrate ph rl bd sinX cosZ ig dt st)).pz
        (lanternRecycle bd sp rd (lanternIntegrate ph rl bd sinX cosZ ig dt st)).vz).1 := rfl

theorem updateLanternStep_vz (ph : PhysicsConfig) (rl : RandomLightConfig)
    (bd : Bounds) (sp : SpawnConfig) (sinX cosZ ig : ℚ) (rd : ResetDraws)
    (dt : ℚ) (st : LanternState) :
    (updateLanternStep ph rl bd sp sinX cosZ ig rd dt st).vz =
      (depthContain bd.zMin bd.zMax
        (lanternRecycle bd sp rd (lanternIntegrate ph rl bd sinX cosZ ig dt st)).pz
        (lanternRecycle bd sp rd (lanternIntegrate ph rl bd sinX cosZ ig dt st)).vz).2 := rfl

theorem lanternIntegrate_vy (ph : PhysicsConfig) (rl : RandomLightConfig)
    (bd : Bounds) (sinX cosZ ig dt : ℚ) (st : LanternState) :
    (lanternIntegrate ph rl bd sinX cosZ ig dt st).vy =
      clampQ ((st.vy + (ph.gravity + ph.liftStrength *
          buoyancyStep ph rl bd st.hovered st.py st.decayRate st.buoyancy ig dt) * dt) *
        ph.verticalDrag) (-ph.maxVerticalSpeed) ph.maxVerticalSpeed := rfl

theorem resetLantern_vy (bd : Bounds) (sp : SpawnConfig) (d : ResetDraws)
    (isInitial : Bool) (st : LanternState) :
    (resetLantern bd sp d isInitial st).vy = randFloat sp.velYMin sp.velYMax d.uvy := rfl

theorem resetLantern_py_noninitial (bd : Bounds) (sp : SpawnConfig) (d : ResetDraws)
    (st : LanternState) :
    (resetLantern bd sp d false st).py = randFloat (bd.yMax + 2) bd.ySpawnTop d.uy := rfl

theorem resetLantern_hovered (bd : Bounds) (sp : SpawnConfig) (d : ResetDraws)
    (isInitial : Bool) (st : LanternState) :
    (resetLantern bd sp d isInitial st).hovered = false := rfl

theorem resetLantern_buoyancy (bd : Bounds) (sp : SpawnConfig) (d : ResetDraws)
    (isInitial : Bool) (st : LanternState) :
    (resetLantern bd sp d isInitial st).buoyancy = d.ub1 * d.ub2 * sp.maxBuoyFactor := rfl

theorem updatePhysicsStep_vy (ph : PhysicsConfig) (bd : Bounds) (sp : SpawnConfig)
    (dc : DecayConfig) (wc : WobbleConfig) (sinX cosZ : ℚ) (rd : ResetDrawsB)
    (dt : ℚ) (st : BalloonState) :
    (updatePhysicsStep ph bd sp dc wc sinX cosZ rd dt st).vy =
      (balloonRecycle bd sp dc wc rd (balloonIntegrate ph sinX cosZ dt st)).vy := rfl

theorem updatePhysicsStep_py (ph : PhysicsConfig) (bd : Bounds) (sp : SpawnConfig)
    (dc : DecayConfig) (wc : WobbleConfig) (sinX cosZ : ℚ) (rd : ResetDrawsB)
    (dt : ℚ) (st : BalloonState) :
    (updatePhysicsStep ph bd sp dc wc sinX cosZ rd dt st).py =
      (balloonRecycle bd sp dc wc rd (balloonIntegrate ph sinX cosZ dt st)).py := rfl

theorem updatePhysicsStep_pz (ph : PhysicsConfig) (bd : Bounds) (sp : SpawnConfig)
    (dc : DecayConfig) (wc : WobbleConfig) (sinX cosZ : ℚ) (rd : ResetDrawsB)
    (dt : ℚ) (st : BalloonState) :
    (updatePhysicsStep ph bd sp dc wc sinX cosZ rd dt st).pz =
      (depthContain bd.zMin bd.zMax
        (balloonRecycle bd sp dc wc rd (balloonIntegrate ph sinX cosZ dt st)).pz
        (balloonRecycle bd sp dc wc rd (balloonIntegrate ph sinX cosZ dt st)).vz).1 := rfl

theorem updatePhysicsStep_vz (ph : PhysicsConfig) (bd : Bounds) (sp : SpawnConfig)
    (dc : DecayConfig) (wc : WobbleConfig) (sinX cosZ : ℚ) (rd : ResetDrawsB)
    (dt : ℚ) (st : BalloonState) :
    (updatePhysicsStep ph bd sp dc wc sinX cosZ rd dt st).vz =
      (depthContain bd.zMin bd.zMax
        (balloonRecycle bd sp dc wc rd (balloonIntegrate ph sinX cosZ dt st)).pz
        (balloonRecycle bd sp dc wc rd (balloonIntegrate ph sinX cosZ dt st)).vz).2 := rfl

theorem balloonIntegrate_vy (ph : PhysicsConfig) (sinX cosZ dt : ℚ)
    (st : BalloonState) :
    (balloonIntegrate ph sinX cosZ dt st).vy =
      clampQ ((st.vy + (ph.gravity + ph.liftStrength * st.buoyancy) * dt) *
        ph.verticalDrag) (-ph.maxVerticalSpeed) ph.maxVerticalSpeed := rfl

theorem resetInstance_vy (bd : Bounds) (sp : SpawnConfig) (dc : DecayConfig)
    (wc : WobbleConfig) (d : ResetDrawsB) (isInitial : Bool) (st : BalloonState) :
    (resetInstance bd sp dc wc d isInitial st).vy =
      randFloat sp.velYMin sp.velYMax d.uvy := rfl

theorem resetInstance_py_noninitial (bd : Bounds) (sp : SpawnConfig) (dc : DecayConfig)
    (wc : WobbleConfig) (d : ResetDrawsB) (st : BalloonState) :
    (resetInstance bd sp dc wc d false st).py =
      randFloat (bd.yMax + 2) bd.ySpawnTop d.uy := rfl

theorem resetInstance_buoyancy (bd : Bounds) (sp : SpawnConfig) (dc : DecayConfig)
    (wc : WobbleConfig) (d : ResetDrawsB) (isInitial : Bool) (st : BalloonState) :
    (resetInstance bd sp dc wc d isInitial st).buoyancy =
      d.ub1 * d.ub2 * sp.maxBuoyFactor := rfl

theorem clampQ_abs_le (v M : ℚ) (hM : 0 ≤ M) : |clampQ v (-M) M| ≤ M :=
  abs_le.mpr ⟨le_clampQ _ _ _, clampQ_le _ (by linarith)⟩

theorem depthContain_low {zMin pz : ℚ} (zMax vz : ℚ) (h : pz < zMin) :
    depthContain zMin zMax pz vz = (zMin, |vz| * (3/5)) := by
  unfold depthContain
  rw [if_pos h]

theorem depthContain_high {zMin zMax pz : ℚ} (vz : ℚ) (h1 : ¬pz < zMin)
    (h2 : zMax < pz) : depthContain zMin zMax pz vz = (zMax, -|vz| * (3/5)) := by
  unfold depthContain
  rw [if_neg h1, if_pos h2]

/-!
## C7 — orb smoothing factor (corrected)

The claim: `alpha = 1 − (1 − smoothingRate)^(dt × 60)` for *every*
frame duration `dt`.  The code computes the exponent as
`Math.max(1, dt * 60)`, so for `dt < 1/60` (frame rates above 60 fps)
the exponent is pinned at 1 and the factor is not the spec's.
-/

/-- C7 counterexample: at `dt = 1/120` (a 120 fps frame) the code's
exponent is `1` while the spec formula prescribes `1/2`, and with the
configured `orbSmoothing = 0.14` the two smoothing factors genuinely
differ: `(1 - 0.14)^1 ≠ (1 - 0.14)^(1/2)`. -/
theorem orb_smoothing_exponent_cex :
    smoothExponent (1/120) = 1 ∧
    smoothExponentSpec (1/120) = 1/2 ∧
    smoothExponent (1/120) ≠ smoothExponentSpec (1/120) ∧
    (1 - (7:ℝ)/50) ^ ((smoothExponent (1/120) : ℚ) : ℝ) ≠
      (1 - (7:ℝ)/50) ^ ((smoothExponentSpec (1/120) : ℚ) : ℝ) := by
  have h1 : smoothExponent (1/120) = 1 := by norm_num [smoothExponent]
  have h2 : smoothExponentSpec (1/120) = 1/2 := by norm_num [smoothExponentSpec]
  refine ⟨h1, h2, by rw [h1, h2]; norm_num, ?_⟩
  rw [h1, h2]
  push_cast
  rw [Real.rpow_one, ← Real.sqrt_eq_rpow]
  intro hEq
  have h0 : (0:ℝ) ≤ 1 - 7/50 := by norm_num
  have hsq := Real.sq_sqrt h0
  rw [← hEq] at hsq
  nlinarith [hsq]

/-- C7 (amended): the smoothing exponent is `max(1, dt·60)` — it agrees
with the spec's `dt·60` exactly when `dt ≥ 1/60` and is pinned at 1 for
shorter frames — and `smoothOrbs` lerps exactly the live slots toward
their targets by the factor `alpha`, leaving dead slots, targets and
TTLs untouched. -/
theorem orb_smoothing_framerate (dt alpha : ℚ) (st : OrbState) (j : ℕ) :
    (1/60 ≤ dt → smoothExponent dt = smoothExponentSpec dt) ∧
    (dt ≤ 1/60 → smoothExponent dt = 1) ∧
    (j < MAX_ORBS → 0 < st.ttl j →
      (smoothOrbs alpha st).posn j = lerpVec (st.posn j) (st.target j) alpha) ∧
    (st.ttl j ≤ 0 → (smoothOrbs alpha st).posn j = st.posn j) ∧
    (smoothOrbs alpha st).target j = st.target j ∧
    (smoothOrbs alpha st).ttl j = st.ttl j := by
  refine ⟨?_, ?_, ?_, ?_, rfl, rfl⟩
  · intro hle
    unfold smoothExponent smoothExponentSpec
    rw [max_eq_right (by linarith)]
  · intro hle
    unfold smoothExponent
    rw [max_eq_left (by linarith)]
  · intro hj ht
    unfold smoothOrbs
    dsimp only
    rw [if_pos ⟨hj, ht⟩]
  · intro ht
    unfold smoothOrbs
    dsimp only
    rw [if_neg]
    rintro ⟨-, hpos⟩
    linarith

/-- C7 witness: at `dt = 1/30` the exponent agrees with the spec's, and
slot 0 of the sample pool (live, ttl `0.1`) is lerped toward its
target. -/
theorem orb_smoothing_framerate_witness :
    smoothExponent (1/30) = smoothExponentSpec (1/30) ∧
    (smoothOrbs (1/2) sampleOrbState).posn 0 =
      lerpVec (sampleOrbState.posn 0) (sampleOrbState.target 0) (1/2) :=
  ⟨(orb_smoothing_framerate (1/30) (1/2) sampleOrbState 0).1 (by norm_num),
    (orb_smoothing_framerate (1/30) (1/2) sampleOrbState 0).2.2.1
      (by norm_num [MAX_ORBS]) (by norm_num [sampleOrbState])⟩

/-!
## C9 — pattern palette index (confirmed)
-/

/-- C9: for every pattern type, every non-empty palette and arbitrary
(possibly negative) height factor, angle factor and density, the final
palette index of `applyPatternColor` lies in `[0, paletteSize)`; an
empty palette yields the white fallback. -/
theorem pattern_index_bounds (p : Pattern) (density h a : ℚ) :
    (p.palette ≠ [] →
      0 ≤ patternFinalIdx p density h a ∧
        patternFinalIdx p density h a < (p.palette.length : ℤ)) ∧
    (p.palette = [] → applyPatternColor p density h a = whiteColor) := by
  constructor
  · intro hne
    have hlen : 0 < (p.palette.length : ℤ) := by
      exact_mod_cast List.length_pos.mpr hne
    have hraw := patternRawIdx_bounds p density h a hlen
    unfold patternFinalIdx
    exact jsRem_of_nonneg (by linarith [hraw.1]) hlen
  · intro he
    unfold applyPatternColor
    rw [if_pos (by simp [he])]

/-- C9 witness: the sample pattern with a negative density (which makes
the intermediate band index negative) still indexes inside `[0, 3)`,
and the empty-palette descriptor yields white. -/
theorem pattern_index_bounds_witness :
    (0 ≤ patternFinalIdx samplePattern (-1) (1/2) (1/4) ∧
      patternFinalIdx samplePattern (-1) (1/2) (1/4) <
        (samplePattern.palette.length : ℤ)) ∧
    applyPatternColor { samplePattern with palette := [] } (-1) (1/2) (1/4) =
      whiteColor :=
  ⟨(pattern_index_bounds samplePattern (-1) (1/2) (1/4)).1 (by simp [samplePattern]),
    (pattern_index_bounds { samplePattern with palette := [] } (-1) (1/2) (1/4)).2 rfl⟩

/-!
## C10 — `setOrb` slot safety (confirmed)
-/

/-- C10: `setOrb` with a slot outside `[0, MAX_ORBS)` is a complete
no-op (the whole pool is returned unchanged, so no entry is modified
and no out-of-range slot is ever written); for an in-range slot the
written time-to-live is `max(0.01, orbMaxTTL) ≥ 0.01 > 0`, so a freshly
written orb is live. -/
theorem setOrb_slot_safe (maxTTL : ℚ) (st : OrbState) (slot : ℤ) (wp : Vec3)
    (s : ℚ) :
    (slot < 0 ∨ (MAX_ORBS : ℤ) ≤ slot → setOrb maxTTL st slot wp s = st) ∧
    (0 ≤ slot → slot < (MAX_ORBS : ℤ) →
      (setOrb maxTTL st slot wp s).ttl slot.toNat = max (1/100) maxTTL ∧
      1/100 ≤ (setOrb maxTTL st slot wp s).ttl slot.toNat ∧
      0 < (setOrb maxTTL st slot wp s).ttl slot.toNat) := by
  constructor
  · intro hcond
    unfold setOrb
    rw [if_pos hcond]
  · intro h0 hlt
    have hcond : ¬(slot < 0 ∨ (MAX_ORBS : ℤ) ≤ slot) := by
      push_neg
      exact ⟨h0, hlt⟩
    unfold setOrb
    rw [if_neg hcond]
    refine ⟨by simp, ?_, ?_⟩
    · simp
    · simp

/-- C10 witness: slot 29 (one past the pool) is a no-op on the sample
pool; slot 0 with the configured `orbMaxTTL = 0.12` gets ttl
`max(0.01, 0.12)`, which is positive. -/
theorem setOrb_slot_safe_witness :
    setOrb (3/25) sampleOrbState 29 ⟨1, 1, 1⟩ 1 = sampleOrbState ∧
    (setOrb (3/25) sampleOrbState 0 ⟨1, 1, 1⟩ 1).ttl 0 = max (1/100) (3/25) ∧
    0 < (setOrb (3/25) sampleOrbState 0 ⟨1, 1, 1⟩ 1).ttl 0 :=
  ⟨(setOrb_slot_safe (3/25) sampleOrbState 29 ⟨1, 1, 1⟩ 1).1
      (Or.inr (by norm_num [MAX_ORBS])),
    ((setOrb_slot_safe (3/25) sampleOrbState 0 ⟨1, 1, 1⟩ 1).2 (by norm_num)
      (by norm_num [MAX_ORBS])).1,
    ((setOrb_slot_safe (3/25) sampleOrbState 0 ⟨1, 1, 1⟩ 1).2 (by norm_num)
      (by norm_num [MAX_ORBS])).2.2⟩

/-!
## C1 — buoyancy stays in [0,1] (confirmed)
-/

/-- C1: the buoyancy scalar lies in `[0,1]` after every per-frame
buoyancy update (lantern `updateLanterns` and balloon
`applyOrbInfluence` both end in a clamp to `[0,1]`), and at every
initialization/reset (`resetLantern` / `resetInstance` write
`u₁·u₂·maxFactor` with `u₁, u₂ ∈ [0,1]` and `maxFactor ∈ [0,1]`). -/
theorem buoyancy_unit_interval
    (ph : PhysicsConfig) (rl : RandomLightConfig) (bd : Bounds) (sp : SpawnConfig)
    (hovered : Bool) (py decayRate b0 igniteDraw dt rNSq : ℚ)
    (bNdc : Ndc) (orbs : List OrbNdc)
    (dL : ResetDraws) (dB : ResetDrawsB) (dc : DecayConfig) (wc : WobbleConfig)
    (isInitial : Bool) (stL : LanternState) (stB : BalloonState)
    (hL1 : 0 ≤ dL.ub1) (hL1' : dL.ub1 ≤ 1) (hL2 : 0 ≤ dL.ub2) (hL2' : dL.ub2 ≤ 1)
    (hB1 : 0 ≤ dB.ub1) (hB1' : dB.ub1 ≤ 1) (hB2 : 0 ≤ dB.ub2) (hB2' : dB.ub2 ≤ 1)
    (hf0 : 0 ≤ sp.maxBuoyFactor) (hf1 : sp.maxBuoyFactor ≤ 1) :
    (0 ≤ buoyancyStep ph rl bd hovered py decayRate b0 igniteDraw dt ∧
      buoyancyStep ph rl bd hovered py decayRate b0 igniteDraw dt ≤ 1) ∧
    (0 ≤ (applyOrbInfluenceStep ph rl bd rNSq bNdc orbs igniteDraw dt stB).buoyancy ∧
      (applyOrbInfluenceStep ph rl bd rNSq bNdc orbs igniteDraw dt stB).buoyancy ≤ 1) ∧
    (0 ≤ (resetLantern bd sp dL isInitial stL).buoyancy ∧
      (resetLantern bd sp dL isInitial stL).buoyancy ≤ 1) ∧
    (0 ≤ (resetInstance bd sp dc wc dB isInitial stB).buoyancy ∧
      (resetInstance bd sp dc wc dB isInitial stB).buoyancy ≤ 1) := by
  have hmul : ∀ u1 u2 : ℚ, 0 ≤ u1 → u1 ≤ 1 → 0 ≤ u2 → u2 ≤ 1 →
      0 ≤ u1 * u2 * sp.maxBuoyFactor ∧ u1 * u2 * sp.maxBuoyFactor ≤ 1 := by
    intro u1 u2 h1 h1' h2 h2'
    constructor
    · exact mul_nonneg (mul_nonneg h1 h2) hf0
    · have h12 : u1 * u2 ≤ 1 := by nlinarith
      have h3 : u1 * u2 * sp.maxBuoyFactor ≤ sp.maxBuoyFactor := by
        nlinarith [mul_nonneg h1 h2]
      linarith
  refine ⟨clampQ_unit _, clampQ_unit _, ?_, ?_⟩
  · rw [resetLantern_buoyancy]
    exact hmul _ _ hL1 hL1' hL2 hL2'
  · rw [resetInstance_buoyancy]
    exact hmul _ _ hB1 hB1' hB2 hB2'

/-- C1 witness: the lantern configuration with all draws at `1/2`
(hence `maxBuoyFactor = 0.4` and reset buoyancy `0.1`), the sample
instances and orb, hovered, at `dt = 0.016`. -/
theorem buoyancy_unit_interval_witness :
    (0 ≤ buoyancyStep lanternPhysics lanternRandomLight lanternBounds true 0 (2/5)
        (1/2) (1/2) (2/125) ∧
      buoyancyStep lanternPhysics lanternRandomLight lanternBounds true 0 (2/5)
        (1/2) (1/2) (2/125) ≤ 1) ∧
    (0 ≤ (applyOrbInfluenceStep lanternPhysics lanternRandomLight lanternBounds
        (169/40000) ⟨0, 0, 0⟩ sampleOrbs (1/2) (2/125) sampleBalloon).buoyancy ∧
      (applyOrbInfluenceStep lanternPhysics lanternRandomLight lanternBounds
        (169/40000) ⟨0, 0, 0⟩ sampleOrbs (1/2) (2/125) sampleBalloon).buoyancy ≤ 1) ∧
    (0 ≤ (resetLantern lanternBounds lanternSpawn sampleDrawsL false sampleLantern).buoyancy ∧
      (resetLantern lanternBounds lanternSpawn sampleDrawsL false sampleLantern).buoyancy ≤ 1) ∧
    (0 ≤ (resetInstance lanternBounds lanternSpawn balloonDecay balloonWobble
        sampleDrawsB false sampleBalloon).buoyancy ∧
      (resetInstance lanternBounds lanternSpawn balloonDecay balloonWobble
        sampleDrawsB false sampleBalloon).buoyancy ≤ 1) :=
  buoyancy_unit_interval lanternPhysics lanternRandomLight lanternBounds lanternSpawn
    true 0 (2/5) (1/2) (1/2) (2/125) (169/40000) ⟨0, 0, 0⟩ sampleOrbs
    sampleDrawsL sampleDrawsB balloonDecay balloonWobble false sampleLantern sampleBalloon
    (by norm_num [sampleDrawsL]) (by norm_num [sampleDrawsL])
    (by norm_num [sampleDrawsL]) (by norm_num [sampleDrawsL])
    (by norm_num [sampleDrawsB]) (by norm_num [sampleDrawsB])
    (by norm_num [sampleDrawsB]) (by norm_num [sampleDrawsB])
    (by norm_num [lanternSpawn]) (by norm_num [lanternSpawn])

/-!
## C8 — depth containment (confirmed)
-/

/-- C8: a `z` driven below `zMin` is clamped to exactly `zMin` with the
z-velocity made nonnegative; symmetrically at `zMax` the z-velocity is
made nonpositive; in both cases the reflected velocity magnitude is
damped by the factor `0.6 < 1`.  Stated on the shared depth-wall code
(`depthContain`) and on both variants' full per-frame steps. -/
theorem depth_containment_clamps
    (zMin zMax pz vz : ℚ) (ph : PhysicsConfig) (rl : RandomLightConfig)
    (bd : Bounds) (sp : SpawnConfig) (dc : DecayConfig) (wc : WobbleConfig)
    (sinX cosZ igniteDraw dt : ℚ) (rdL : ResetDraws) (rdB : ResetDrawsB)
    (stL : LanternState) (stB : BalloonState) :
    (pz < zMin →
      depthContain zMin zMax pz vz = (zMin, |vz| * (3/5)) ∧
      0 ≤ |vz| * (3/5) ∧ |(|vz| * (3/5))| = (3/5) * |vz| ∧ (3/5 : ℚ) < 1) ∧
    (¬pz < zMin → zMax < pz →
      depthContain zMin zMax pz vz = (zMax, -|vz| * (3/5)) ∧
      -|vz| * (3/5) ≤ 0 ∧ |(-|vz| * (3/5))| = (3/5) * |vz|) ∧
    ((lanternRecycle bd sp rdL (lanternIntegrate ph rl bd sinX cosZ igniteDraw dt stL)).pz
        < bd.zMin →
      (updateLanternStep ph rl bd sp sinX cosZ igniteDraw rdL dt stL).pz = bd.zMin ∧
      0 ≤ (updateLanternStep ph rl bd sp sinX cosZ igniteDraw rdL dt stL).vz) ∧
    (¬(balloonRecycle bd sp dc wc rdB (balloonIntegrate ph sinX cosZ dt stB)).pz < bd.zMin →
      bd.zMax < (balloonRecycle bd sp dc wc rdB (balloonIntegrate ph sinX cosZ dt stB)).pz →
      (updatePhysicsStep ph bd sp dc wc sinX cosZ rdB dt stB).pz = bd.zMax ∧
      (updatePhysicsStep ph bd sp dc wc sinX cosZ rdB dt stB).vz ≤ 0) := by
  refine ⟨?_, ?_, ?_, ?_⟩
  · intro h
    refine ⟨depthContain_low zMax vz h, by positivity, ?_, by norm_num⟩
    rw [abs_of_nonneg (by positivity)]
    ring
  · intro h1 h2
    refine ⟨depthContain_high vz h1 h2, ?_, ?_⟩
    · nlinarith [abs_nonneg vz]
    · rw [show -|vz| * (3/5) = -(|vz| * (3/5)) by ring, abs_neg,
        abs_of_nonneg (by positivity)]
      ring
  · intro h
    rw [updateLanternStep_pz, updateLanternStep_vz, depthContain_low _ _ h]
    exact ⟨rfl, by positivity⟩
  · intro h1 h2
    rw [updatePhysicsStep_pz, updatePhysicsStep_vz, depthContain_high _ h1 h2]
    refine ⟨rfl, ?_⟩
    simp only
    nlinarith [abs_nonneg (balloonRecycle bd sp dc wc rdB
      (balloonIntegrate ph sinX cosZ dt stB)).vz]


/-- C8 witness: the shared depth-wall code at `z = -9 < zMin = -8` and
`z = 5 > zMax = 4`, and both variants' full steps on `depthLantern` /
`depthBalloon`. -/
theorem depth_containment_clamps_witness :
    (depthContain (-8) 4 (-9) (-2) = (-8, 6/5) ∧ (0:ℚ) ≤ 6/5) ∧
    (depthContain (-8) 4 5 (-2) = (4, -6/5)) ∧
    ((updateLanternStep lanternPhysics lanternRandomLight lanternBounds lanternSpawn
        0 0 (1/2) sampleDrawsL (2/125) depthLantern).pz = lanternBounds.zMin ∧
      0 ≤ (updateLanternStep lanternPhysics lanternRandomLight lanternBounds lanternSpawn
        0 0 (1/2) sampleDrawsL (2/125) depthLantern).vz) ∧
    ((updatePhysicsStep balloonPhysics balloonBounds balloonSpawn balloonDecay
        balloonWobble 0 0 sampleDrawsB (2/125) depthBalloon).pz = balloonBounds.zMax ∧
      (updatePhysicsStep balloonPhysics balloonBounds balloonSpawn balloonDecay
        balloonWobble 0 0 sampleDrawsB (2/125) depthBalloon).vz ≤ 0) := by
  have base := depth_containment_clamps (-8) 4 (-9) (-2) lanternPhysics
    lanternRandomLight lanternBounds lanternSpawn balloonDecay balloonWobble
    0 0 (1/2) (2/125) sampleDrawsL sampleDrawsB depthLantern depthBalloon
  have baseHigh := depth_containment_clamps (-8) 4 5 (-2) lanternPhysics
    lanternRandomLight lanternBounds lanternSpawn balloonDecay balloonWobble
    0 0 (1/2) (2/125) sampleDrawsL sampleDrawsB depthLantern depthBalloon
  have stepL := depth_containment_clamps (-8) 4 (-9) (-2) lanternPhysics
    lanternRandomLight lanternBounds lanternSpawn balloonDecay balloonWobble
    0 0 (1/2) (2/125) sampleDrawsL sampleDrawsB depthLantern depthBalloon
  have stepB := depth_containment_clamps (-8) 4 (-9) (-2) balloonPhysics
    lanternRandomLight balloonBounds balloonSpawn balloonDecay balloonWobble
    0 0 (1/2) (2/125) sampleDrawsL sampleDrawsB depthLantern depthBalloon
  refine ⟨?_, ?_, ?_, ?_⟩
  · have h := (base.1 (by norm_num))
    refine ⟨?_, by norm_num⟩
    rw [h.1]
    norm_num
  · have h := (baseHigh.2.1 (by norm_num) (by norm_num))
    rw [h.1]
    norm_num
  · refine stepL.2.2.1 ?_
    norm_num [lanternRecycle, lanternIntegrate, resetLantern, outOfVolumeAt,
      buoyancyStep, clampQ, depthLantern, lanternPhysics, lanternRandomLight,
      lanternBounds, lanternSpawn, sampleDrawsL, randFloat, randFloatSpread,
      min_def, max_def]
  · refine stepB.2.2.2 ?_ ?_ <;>
    norm_num [balloonRecycle, balloonIntegrate, resetInstance, outOfVolumeAt,
      buoyancyStep, clampQ, depthBalloon, balloonPhysics, balloonBounds,
      balloonSpawn, balloonDecay, balloonWobble, sampleDrawsB, randFloat,
      randFloatSpread, min_def, max_def]

/-!
## C4 — recycling respawns in the band above the visible top (confirmed)
-/

/-- C4: when the integrated position exits the recycle volume, the same
update resets the instance: its new `y` lies in the non-initial spawn
band `[yMax + 2, ySpawnTop]` — strictly above the visible top and at
most the spawn ceiling, hence inside `[yOffBottom, ySpawnTop]` — and
(lantern variant, the one that stores a hover flag) `hovered` is false
immediately after. -/
theorem recycle_respawn_band
    (ph : PhysicsConfig) (rl : RandomLightConfig) (bd : Bounds) (sp : SpawnConfig)
    (dc : DecayConfig) (wc : WobbleConfig)
    (sinX cosZ igniteDraw dt : ℚ) (rdL : ResetDraws) (rdB : ResetDrawsB)
    (stL : LanternState) (stB : BalloonState)
    (hband : bd.yMax + 2 ≤ bd.ySpawnTop) (hfloor : bd.yOffBottom ≤ bd.yMax)
    (huL : 0 ≤ rdL.uy) (huL1 : rdL.uy ≤ 1)
    (huB : 0 ≤ rdB.uy) (huB1 : rdB.uy ≤ 1) :
    (outOfVolumeAt bd (lanternIntegrate ph rl bd sinX cosZ igniteDraw dt stL).px
        (lanternIntegrate ph rl bd sinX cosZ igniteDraw dt stL).py →
      bd.yMax < (updateLanternStep ph rl bd sp sinX cosZ igniteDraw rdL dt stL).py ∧
      bd.yMax + 2 ≤ (updateLanternStep ph rl bd sp sinX cosZ igniteDraw rdL dt stL).py ∧
      (updateLanternStep ph rl bd sp sinX cosZ igniteDraw rdL dt stL).py ≤ bd.ySpawnTop ∧
      bd.yOffBottom ≤ (updateLanternStep ph rl bd sp sinX cosZ igniteDraw rdL dt stL).py ∧
      (updateLanternStep ph rl bd sp sinX cosZ igniteDraw rdL dt stL).hovered = false) ∧
    (outOfVolumeAt bd (balloonIntegrate ph sinX cosZ dt stB).px
        (balloonIntegrate ph sinX cosZ dt stB).py →
      bd.yMax < (updatePhysicsStep ph bd sp dc wc sinX cosZ rdB dt stB).py ∧
      bd.yMax + 2 ≤ (updatePhysicsStep ph bd sp dc wc sinX cosZ rdB dt stB).py ∧
      (updatePhysicsStep ph bd sp dc wc sinX cosZ rdB dt stB).py ≤ bd.ySpawnTop ∧
      bd.yOffBottom ≤ (updatePhysicsStep ph bd sp dc wc sinX cosZ rdB dt stB).py) := by
  constructor
  · intro hout
    have hrec : lanternRecycle bd sp rdL (lanternIntegrate ph rl bd sinX cosZ igniteDraw dt stL) =
        resetLantern bd sp rdL false (lanternIntegrate ph rl bd sinX cosZ igniteDraw dt stL) := by
      unfold lanternRecycle
      rw [if_pos hout]
    have hmem := randFloat_mem hband huL huL1
    rw [updateLanternStep_py, updateLanternStep_hovered, hrec,
      resetLantern_py_noninitial, resetLantern_hovered]
    refine ⟨by linarith [hmem.1], hmem.1, hmem.2, by linarith [hmem.1], rfl⟩
  · intro hout
    have hrec : balloonRecycle bd sp dc wc rdB (balloonIntegrate ph sinX cosZ dt stB) =
        resetInstance bd sp dc wc rdB false (balloonIntegrate ph sinX cosZ dt stB) := by
      unfold balloonRecycle
      rw [if_pos hout]
    have hmem := randFloat_mem hband huB huB1
    rw [updatePhysicsStep_py, hrec, resetInstance_py_noninitial]
    exact ⟨by linarith [hmem.1], hmem.1, hmem.2, by linarith [hmem.1]⟩


/-- C4 witness: with both variants' actual configurations, the sample
out-of-volume instances respawn in the band above the visible top with
the hover flag cleared. -/
theorem recycle_respawn_band_witness :
    (lanternBounds.yMax <
      (updateLanternStep lanternPhysics lanternRandomLight lanternBounds lanternSpawn
        0 0 (1/2) sampleDrawsL (2/125) recycleLantern).py ∧
      (updateLanternStep lanternPhysics lanternRandomLight lanternBounds lanternSpawn
        0 0 (1/2) sampleDrawsL (2/125) recycleLantern).py ≤ lanternBounds.ySpawnTop ∧
      (updateLanternStep lanternPhysics lanternRandomLight lanternBounds lanternSpawn
        0 0 (1/2) sampleDrawsL (2/125) recycleLantern).hovered = false) ∧
    (balloonBounds.yMax <
      (updatePhysicsStep balloonPhysics balloonBounds balloonSpawn balloonDecay
        balloonWobble 0 0 sampleDrawsB (2/125) recycleBalloon).py ∧
      (updatePhysicsStep balloonPhysics balloonBounds balloonSpawn balloonDecay
        balloonWobble 0 0 sampleDrawsB (2/125) recycleBalloon).py ≤ balloonBounds.ySpawnTop) := by
  have hL := (recycle_respawn_band lanternPhysics lanternRandomLight lanternBounds
    lanternSpawn balloonDecay balloonWobble 0 0 (1/2) (2/125) sampleDrawsL sampleDrawsB
    recycleLantern recycleBalloon
    (by norm_num [lanternBounds]) (by norm_num [lanternBounds])
    (by norm_num [sampleDrawsL]) (by norm_num [sampleDrawsL])
    (by norm_num [sampleDrawsB]) (by norm_num [sampleDrawsB])).1
    (by norm_num [lanternIntegrate, buoyancyStep, clampQ, outOfVolumeAt,
      recycleLantern, lanternPhysics, lanternRandomLight, lanternBounds,
      min_def, max_def])
  have hB := (recycle_respawn_band balloonPhysics balloonRandomLight balloonBounds
    balloonSpawn balloonDecay balloonWobble 0 0 (1/2) (2/125) sampleDrawsL sampleDrawsB
    recycleLantern recycleBalloon
    (by norm_num [balloonBounds]) (by norm_num [balloonBounds])
    (by norm_num [sampleDrawsL]) (by norm_num [sampleDrawsL])
    (by norm_num [sampleDrawsB]) (by norm_num [sampleDrawsB])).2
    (by norm_num [balloonIntegrate, clampQ, outOfVolumeAt, recycleBalloon,
      balloonPhysics, balloonBounds, min_def, max_def])
  exact ⟨⟨hL.1, hL.2.2.1, hL.2.2.2.2⟩, hB.1, hB.2.2.1⟩

/-!
## C2 — vertical speed bound (corrected)

The claim: after every frame's *full* update — including the lantern
variant's collision pass, which runs after the integration clamp — the
vertical speed never exceeds `maxVerticalSpeed`.  The integration step
does clamp (`verticalSpeedClamped` below, which also covers the
balloon variant, whose frame has no collision pass), but
`handleCollisions` applies impulses *after* the clamp and never
re-clamps: a pair overlapping along a tilted normal with a large
horizontal relative speed receives a vertical impulse that drives
`|vy|` above the bound (counterexample below).
-/


/-- C2 counterexample: a complete lantern frame (integration with its
clamp, then the collision pass) started from two instances with
`|vy| ≤ maxVerticalSpeed = 4` ends with instance `b` at
`vy = 443551/62500 ≈ 7.097 > 4`.  The `dist = 1/2` handed to the
resolver is the exact square root of the pair's squared distance. -/
theorem vertical_speed_collision_cex :
    |cexA.vy| ≤ lanternPhysics.maxVerticalSpeed ∧
    |cexB.vy| ≤ lanternPhysics.maxVerticalSpeed ∧
    |cexA1.vy| ≤ lanternPhysics.maxVerticalSpeed ∧
    |cexB1.vy| ≤ lanternPhysics.maxVerticalSpeed ∧
    (1/2 : ℚ) * (1/2) = sep2 (pairOfLanterns cexA1 cexB1) ∧
    cexPair.vby = 443551/62500 ∧
    lanternPhysics.maxVerticalSpeed < cexPair.vby := by
  norm_num [cexA, cexB, cexA1, cexB1, cexPair, updateLanternStep, lanternIntegrate,
    lanternRecycle, resetLantern, buoyancyStep, clampQ, depthContain, outOfVolumeAt,
    resolvePair, pairOfLanterns, sep2, lanternPhysics, lanternRandomLight,
    lanternBounds, lanternSpawn, lanternCollisionRadius, randFloat, randFloatSpread,
    sampleDrawsL, min_def, max_def, abs]

/-- C2 (amended): after the integration step's vertical-speed clamp the
bound holds in both variants — `|vy| ≤ maxVerticalSpeed` at the end of
`updateLanterns` for every lantern and at the end of `updatePhysics`
for every balloon (the balloon frame has no collision pass, so there
this is the end-of-frame state) — provided the configured bound is
nonnegative and the respawn vertical-velocity range lies within it. -/
theorem vertical_speed_clamped
    (ph : PhysicsConfig) (rl : RandomLightConfig) (bd : Bounds) (sp : SpawnConfig)
    (dc : DecayConfig) (wc : WobbleConfig)
    (sinX cosZ igniteDraw dt : ℚ) (rdL : ResetDraws) (rdB : ResetDrawsB)
    (stL : LanternState) (stB : BalloonState)
    (hM : 0 ≤ ph.maxVerticalSpeed)
    (hlo : -ph.maxVerticalSpeed ≤ sp.velYMin) (hhi : sp.velYMax ≤ ph.maxVerticalSpeed)
    (hr : sp.velYMin ≤ sp.velYMax)
    (huL : 0 ≤ rdL.uvy) (huL1 : rdL.uvy ≤ 1)
    (huB : 0 ≤ rdB.uvy) (huB1 : rdB.uvy ≤ 1) :
    |(updateLanternStep ph rl bd sp sinX cosZ igniteDraw rdL dt stL).vy| ≤
      ph.maxVerticalSpeed ∧
    |(updatePhysicsStep ph bd sp dc wc sinX cosZ rdB dt stB).vy| ≤
      ph.maxVerticalSpeed := by
  constructor
  · rw [updateLanternStep_vy]
    unfold lanternRecycle
    by_cases hout : outOfVolumeAt bd
        (lanternIntegrate ph rl bd sinX cosZ igniteDraw dt stL).px
        (lanternIntegrate ph rl bd sinX cosZ igniteDraw dt stL).py
    · rw [if_pos hout, resetLantern_vy]
      have hmem := randFloat_mem hr huL huL1
      rw [abs_le]
      exact ⟨by linarith [hmem.1], by linarith [hmem.2]⟩
    · rw [if_neg hout, lanternIntegrate_vy]
      exact clampQ_abs_le _ _ hM
  · rw [updatePhysicsStep_vy]
    unfold balloonRecycle
    by_cases hout : outOfVolumeAt bd
        (balloonIntegrate ph sinX cosZ dt stB).px
        (balloonIntegrate ph sinX cosZ dt stB).py
    · rw [if_pos hout, resetInstance_vy]
      have hmem := randFloat_mem hr huB huB1
      rw [abs_le]
      exact ⟨by linarith [hmem.1], by linarith [hmem.2]⟩
    · rw [if_neg hout, balloonIntegrate_vy]
      exact clampQ_abs_le _ _ hM

/-- C2 witness: the amended bound at the lantern configuration
(`maxVerticalSpeed = 4`, respawn vy range `[-0.9, -0.1]`) on the sample
instances. -/
theorem vertical_speed_clamped_witness :
    |(updateLanternStep lanternPhysics lanternRandomLight lanternBounds lanternSpawn
        0 0 (1/2) sampleDrawsL (2/125) sampleLantern).vy| ≤
      lanternPhysics.maxVerticalSpeed ∧
    |(updatePhysicsStep lanternPhysics lanternBounds lanternSpawn balloonDecay
        balloonWobble 0 0 sampleDrawsB (2/125) sampleBalloon).vy| ≤
      lanternPhysics.maxVerticalSpeed :=
  vertical_speed_clamped lanternPhysics lanternRandomLight lanternBounds lanternSpawn
    balloonDecay balloonWobble 0 0 (1/2) (2/125) sampleDrawsL sampleDrawsB
    sampleLantern sampleBalloon
    (by norm_num [lanternPhysics])
    (by norm_num [lanternPhysics, lanternSpawn])
    (by norm_num [lanternPhysics, lanternSpawn])
    (by norm_num [lanternSpawn])
    (by norm_num [sampleDrawsL]) (by norm_num [sampleDrawsL])
    (by norm_num [sampleDrawsB]) (by norm_num [sampleDrawsB])

/-!
## C5 — screen-space hover at identical NDC (corrected)

The claim: an instance and a live orb projecting to the identical 2D
NDC coordinate are *always* judged hovered, regardless of the
world-space depth of either.  The hover loop first rejects any balloon
whose NDC depth is outside `[-1, 1]` (and skips any orb whose NDC
depth is outside `[-1, 1]`), so at depths outside the camera's clip
range the instance is never hovered.  Within the clip range the claim
holds for any configured radius, because the radius is clamped to at
least `screenRadiusMin > 0`.
-/

/-- C5 counterexample: with the configured radius `0.065` (clamped into
`[0.03, 0.10]`), an instance whose projection has NDC depth `z = 2`
(beyond the far clip) shares the identical 2D NDC coordinate `(0,0)`
with a live in-clip orb, yet is judged not hovered. -/
theorem screen_hover_depth_cex :
    0 < effectiveScreenRadius (13/200) (3/100) (1/10) ∧
    ¬ clipOK ⟨0, 0, 2⟩ ∧
    screenHovered
      (effectiveScreenRadius (13/200) (3/100) (1/10) *
        effectiveScreenRadius (13/200) (3/100) (1/10))
      ⟨0, 0, 2⟩ [⟨1, ⟨0, 0, 0⟩⟩] = false := by
  refine ⟨?_, ?_, ?_⟩
  · norm_num [effectiveScreenRadius, clampQ, min_def, max_def]
  · norm_num [clipOK]
  · norm_num [screenHovered, clipOK]

/-- C5 (amended): in screen-space mode, for any configured radius
(clamped to the positive minimum) an instance and a live orb that
project to the identical 2D NDC coordinate are judged hovered provided
both projections lie within the clip range `[-1, 1]` in depth. -/
theorem screen_hover_same_ndc
    (cfgR rMin rMax : ℚ) (b : Ndc) (o : OrbNdc) (pre post : List OrbNdc)
    (hrm : 0 < rMin)
    (hb : clipOK b) (ho : clipOK o.ndc) (ht : 0 < o.ttl)
    (hx : b.x = o.ndc.x) (hy : b.y = o.ndc.y) :
    screenHovered
      (effectiveScreenRadius cfgR rMin rMax * effectiveScreenRadius cfgR rMin rMax)
      b (pre ++ o :: post) = true := by
  have hr : 0 < effectiveScreenRadius cfgR rMin rMax :=
    lt_of_lt_of_le hrm (le_clampQ _ _ _)
  have hdist : (b.x - o.ndc.x) * (b.x - o.ndc.x) +
      (b.y - o.ndc.y) * (b.y - o.ndc.y) <
      effectiveScreenRadius cfgR rMin rMax * effectiveScreenRadius cfgR rMin rMax := by
    rw [hx, hy]
    simpa using mul_pos hr hr
  unfold screenHovered
  simp only [List.any_append, List.any_cons, Bool.and_eq_true, Bool.or_eq_true,
    decide_eq_true_eq]
  exact ⟨hb, Or.inr (Or.inl ⟨⟨ht, ho⟩, hdist⟩)⟩

/-- C5 witness: an instance at NDC `(1/4, -1/3, 1/2)` and a live orb
projecting to the same 2D point at a different depth `-3/4`, with the
configured radius `0.065` in `[0.03, 0.10]`: hovered. -/
theorem screen_hover_same_ndc_witness :
    screenHovered
      (effectiveScreenRadius (13/200) (3/100) (1/10) *
        effectiveScreenRadius (13/200) (3/100) (1/10))
      ⟨1/4, -1/3, 1/2⟩ ([] ++ ⟨1/10, ⟨1/4, -1/3, -3/4⟩⟩ :: []) = true :=
  screen_hover_same_ndc (13/200) (3/100) (1/10) ⟨1/4, -1/3, 1/2⟩
    ⟨1/10, ⟨1/4, -1/3, -3/4⟩⟩ [] []
    (by norm_num)
    (by norm_num [clipOK]) (by norm_num [clipOK]) (by norm_num) rfl rfl

/-!
## C3 — collision resolution behaviour (confirmed)

Derived abbreviations for the resolver's branches: `relVelAlongNormal`
is the code's `velAlongNormal`, `pairCorrected` the state after the
positional correction only, `pairImpulsed` the state after positional
correction plus the velocity impulse.  Each is definitionally equal to
the corresponding branch result of `resolvePair`.
-/


theorem resolvePair_zero {minDist e dist : ℚ} {s : PairState} (h : sep2 s = 0) :
    resolvePair minDist e dist s = s := by
  unfold sep2 at h
  simp only [resolvePair]
  rw [if_pos (Or.inl h)]

theorem resolvePair_far {minDist e dist : ℚ} {s : PairState}
    (h : minDist * minDist < sep2 s) : resolvePair minDist e dist s = s := by
  unfold sep2 at h
  simp only [resolvePair]
  rw [if_pos (Or.inr h)]

theorem resolvePair_eq_diameter {minDist e dist : ℚ} {s : PairState}
    (hd : dist * dist = sep2 s) (hd0 : 0 ≤ dist) (hmin : 0 < minDist)
    (h : sep2 s = minDist * minDist) : resolvePair minDist e dist s = s := by
  have hdm : dist = minDist := by
    have hfac : (dist - minDist) * (dist + minDist) = 0 := by
      linear_combination hd + h
    rcases mul_eq_zero.mp hfac with h1 | h2
    · linarith
    · linarith
  have hpos : (0:ℚ) < minDist * minDist := by positivity
  unfold sep2 at h
  simp only [resolvePair]
  rw [if_neg, if_pos]
  · linarith [hdm]
  · push_neg
    constructor
    · intro h0
      rw [h0] at h
      unfold sep2 at hpos
      exact absurd h.symm (ne_of_gt hpos)
    · rw [h]

theorem resolvePair_overlap_sep {minDist e dist : ℚ} {s : PairState}
    (hne : ¬ sep2 s = 0) (hle : ¬ minDist * minDist < sep2 s) (hdlt : dist < minDist)
    (hv : 0 < relVelAlongNormal dist s) :
    resolvePair minDist e dist s = pairCorrected minDist dist s := by
  unfold sep2 at hne hle
  unfold relVelAlongNormal at hv
  simp only [resolvePair]
  rw [if_neg (by push_neg; exact ⟨hne, not_lt.mp hle⟩), if_neg (by linarith), if_pos hv]
  rfl

theorem resolvePair_overlap_app {minDist e dist : ℚ} {s : PairState}
    (hne : ¬ sep2 s = 0) (hle : ¬ minDist * minDist < sep2 s) (hdlt : dist < minDist)
    (hv : ¬ 0 < relVelAlongNormal dist s) :
    resolvePair minDist e dist s = pairImpulsed minDist e dist s := by
  unfold sep2 at hne hle
  unfold relVelAlongNormal at hv
  simp only [resolvePair]
  rw [if_neg (by push_neg; exact ⟨hne, not_lt.mp hle⟩), if_neg (by linarith), if_neg hv]
  rfl

theorem sep2_pairCorrected {minDist dist : ℚ} {s : PairState}
    (hd : dist * dist = sep2 s) (hdist : dist ≠ 0) :
    sep2 (pairCorrected minDist dist s) = minDist * minDist := by
  unfold sep2 at hd
  unfold sep2 pairCorrected
  dsimp only
  field_simp
  ring_nf
  linear_combination (-4 * minDist ^ 2) * hd

/-- C3: one `handleCollisions` pair iteration.  With `dist` the exact
square root of the squared distance: (i) a pair at zero distance is
unchanged; (ii) a pair at distance `≥ minDist = 2·collisionRadius` is
unchanged; (iii) an overlapping pair (`0 < d < minDist`) is pushed
apart by half the overlap each along the unit separation normal, its
squared separation becoming exactly `minDist²` — a strict increase;
if approaching (negative relative normal velocity) both receive the
equal-and-opposite impulse of magnitude `(1+e)·|v_n|·0.5` along the
normal, after which the relative normal velocity is `-e·v_n ≥ 0` (the
closing speed drops to zero); if separating, velocities are
untouched. -/
theorem collision_pair_resolution
    (minDist e dist : ℚ) (s : PairState)
    (hd : dist * dist = sep2 s) (hd0 : 0 ≤ dist) (hmin : 0 < minDist) (he : 0 ≤ e) :
    (sep2 s = 0 → resolvePair minDist e dist s = s) ∧
    (minDist * minDist ≤ sep2 s → resolvePair minDist e dist s = s) ∧
    (0 < sep2 s → sep2 s < minDist * minDist →
      ((s.pbx - s.pax)/dist) * ((s.pbx - s.pax)/dist) +
        ((s.pby - s.pay)/dist) * ((s.pby - s.pay)/dist) +
        ((s.pbz - s.paz)/dist) * ((s.pbz - s.paz)/dist) = 1 ∧
      ((resolvePair minDist e dist s).pax =
          s.pax - ((s.pbx - s.pax)/dist) * ((minDist - dist) * (1/2)) ∧
        (resolvePair minDist e dist s).pay =
          s.pay - ((s.pby - s.pay)/dist) * ((minDist - dist) * (1/2)) ∧
        (resolvePair minDist e dist s).paz =
          s.paz - ((s.pbz - s.paz)/dist) * ((minDist - dist) * (1/2)) ∧
        (resolvePair minDist e dist s).pbx =
          s.pbx + ((s.pbx - s.pax)/dist) * ((minDist - dist) * (1/2)) ∧
        (resolvePair minDist e dist s).pby =
          s.pby + ((s.pby - s.pay)/dist) * ((minDist - dist) * (1/2)) ∧
        (resolvePair minDist e dist s).pbz =
          s.pbz + ((s.pbz - s.paz)/dist) * ((minDist - dist) * (1/2))) ∧
      sep2 (resolvePair minDist e dist s) = minDist * minDist ∧
      sep2 s < sep2 (resolvePair minDist e dist s) ∧
      (relVelAlongNormal dist s < 0 →
        ((resolvePair minDist e dist s).vax =
            s.vax - ((1 + e) * (-(relVelAlongNormal dist s)) * (1/2)) *
              ((s.pbx - s.pax)/dist) ∧
          (resolvePair minDist e dist s).vay =
            s.vay - ((1 + e) * (-(relVelAlongNormal dist s)) * (1/2)) *
              ((s.pby - s.pay)/dist) ∧
          (resolvePair minDist e dist s).vaz =
            s.vaz - ((1 + e) * (-(relVelAlongNormal dist s)) * (1/2)) *
              ((s.pbz - s.paz)/dist) ∧
          (resolvePair minDist e dist s).vbx =
            s.vbx + ((1 + e) * (-(relVelAlongNormal dist s)) * (1/2)) *
              ((s.pbx - s.pax)/dist) ∧
          (resolvePair minDist e dist s).vby =
            s.vby + ((1 + e) * (-(relVelAlongNormal dist s)) * (1/2)) *
              ((s.pby - s.pay)/dist) ∧
          (resolvePair minDist e dist s).vbz =
            s.vbz + ((1 + e) * (-(relVelAlongNormal dist s)) * (1/2)) *
              ((s.pbz - s.paz)/dist)) ∧
        ((resolvePair minDist e dist s).vbx - (resolvePair minDist e dist s).vax) *
            ((s.pbx - s.pax)/dist) +
          ((resolvePair minDist e dist s).vby - (resolvePair minDist e dist s).vay) *
            ((s.pby - s.pay)/dist) +
          ((resolvePair minDist e dist s).vbz - (resolvePair minDist e dist s).vaz) *
            ((s.pbz - s.paz)/dist) = -e * relVelAlongNormal dist s ∧
        0 ≤ ((resolvePair minDist e dist s).vbx - (resolvePair minDist e dist s).vax) *
            ((s.pbx - s.pax)/dist) +
          ((resolvePair minDist e dist s).vby - (resolvePair minDist e dist s).vay) *
            ((s.pby - s.pay)/dist) +
          ((resolvePair minDist e dist s).vbz - (resolvePair minDist e dist s).vaz) *
            ((s.pbz - s.paz)/dist)) ∧
      (0 < relVelAlongNormal dist s →
        (resolvePair minDist e dist s).vax = s.vax ∧
        (resolvePair minDist e dist s).vay = s.vay ∧
        (resolvePair minDist e dist s).vaz = s.vaz ∧
        (resolvePair minDist e dist s).vbx = s.vbx ∧
        (resolvePair minDist e dist s).vby = s.vby ∧
        (resolvePair minDist e dist s).vbz = s.vbz)) := by
  refine ⟨fun h => resolvePair_zero h, ?_, ?_⟩
  · intro h
    rcases eq_or_lt_of_le h with heq | hlt
    · exact resolvePair_eq_diameter hd hd0 hmin heq.symm
    · exact resolvePair_far hlt
  · intro hpos hlt
    have hdist0 : dist ≠ 0 := by
      intro h0
      rw [h0] at hd
      simp at hd
      linarith [hd ▸ hpos]
    have hdpos : 0 < dist := lt_of_le_of_ne hd0 (Ne.symm hdist0)
    have hdlt : dist < minDist := by nlinarith
    have hne : ¬ sep2 s = 0 := ne_of_gt hpos
    have hle : ¬ minDist * minDist < sep2 s := not_lt.mpr hlt.le
    have hd' := hd
    unfold sep2 at hd'
    have hnsq : ((s.pbx - s.pax)/dist) * ((s.pbx - s.pax)/dist) +
        ((s.pby - s.pay)/dist) * ((s.pby - s.pay)/dist) +
        ((s.pbz - s.paz)/dist) * ((s.pbz - s.paz)/dist) = 1 := by
      field_simp
      linear_combination -hd'
    refine ⟨hnsq, ?_, ?_, ?_, ?_, ?_⟩
    · by_cases hv : 0 < relVelAlongNormal dist s
      · rw [resolvePair_overlap_sep hne hle hdlt hv]
        exact ⟨rfl, rfl, rfl, rfl, rfl, rfl⟩
      · rw [resolvePair_overlap_app hne hle hdlt hv]
        exact ⟨rfl, rfl, rfl, rfl, rfl, rfl⟩
    · by_cases hv : 0 < relVelAlongNormal dist s
      · rw [resolvePair_overlap_sep hne hle hdlt hv]
        exact sep2_pairCorrected hd hdist0
      · rw [resolvePair_overlap_app hne hle hdlt hv]
        show sep2 (pairCorrected minDist dist s) = minDist * minDist
        exact sep2_pairCorrected hd hdist0
    · have hsep' : sep2 (resolvePair minDist e dist s) = minDist * minDist := by
        by_cases hv : 0 < relVelAlongNormal dist s
        · rw [resolvePair_overlap_sep hne hle hdlt hv]
          exact sep2_pairCorrected hd hdist0
        · rw [resolvePair_overlap_app hne hle hdlt hv]
          show sep2 (pairCorrected minDist dist s) = minDist * minDist
          exact sep2_pairCorrected hd hdist0
      rw [hsep']
      exact hlt
    · intro hvneg
      have hv : ¬ 0 < relVelAlongNormal dist s := not_lt.mpr hvneg.le
      rw [resolvePair_overlap_app hne hle hdlt hv]
      have hvanEq : ((pairImpulsed minDist e dist s).vbx -
            (pairImpulsed minDist e dist s).vax) * ((s.pbx - s.pax)/dist) +
          ((pairImpulsed minDist e dist s).vby -
            (pairImpulsed minDist e dist s).vay) * ((s.pby - s.pay)/dist) +
          ((pairImpulsed minDist e dist s).vbz -
            (pairImpulsed minDist e dist s).vaz) * ((s.pbz - s.paz)/dist) =
          -e * relVelAlongNormal dist s := by
        simp only [pairImpulsed, relVelAlongNormal]
        linear_combination (-(1 + e) * ((s.vbx - s.vax) * ((s.pbx - s.pax)/dist) +
          (s.vby - s.vay) * ((s.pby - s.pay)/dist) +
          (s.vbz - s.vaz) * ((s.pbz - s.paz)/dist))) * hnsq
      refine ⟨⟨?_, ?_, ?_, ?_, ?_, ?_⟩, hvanEq, ?_⟩
      · simp only [pairImpulsed]
        ring
      · simp only [pairImpulsed]
        ring
      · simp only [pairImpulsed]
        ring
      · simp only [pairImpulsed]
        ring
      · simp only [pairImpulsed]
        ring
      · simp only [pairImpulsed]
        ring
      · rw [hvanEq]
        nlinarith
    · intro hv
      rw [resolvePair_overlap_sep hne hle hdlt hv]
      exact ⟨rfl, rfl, rfl, rfl, rfl, rfl⟩


/-- C3 witness: on `witnessPair` with the lantern restitution `0.3` and
`dist = 1/2` (the exact root of the squared distance `1/4`), the
resolver strictly increases the squared separation to exactly
`(2·collisionRadius)² = 0.49`, and a distant pair is untouched. -/
theorem collision_pair_resolution_witness :
    sep2 (resolvePair (7/10) (3/10) (1/2) witnessPair) = (7/10) * (7/10) ∧
    sep2 witnessPair < sep2 (resolvePair (7/10) (3/10) (1/2) witnessPair) ∧
    resolvePair (7/10) (3/10) 10 { witnessPair with pbx := -6, pby := 8 } =
      { witnessPair with pbx := -6, pby := 8 } := by
  have base := collision_pair_resolution (7/10) (3/10) (1/2) witnessPair
    (by norm_num [sep2, witnessPair]) (by norm_num) (by norm_num) (by norm_num)
  have far := collision_pair_resolution (7/10) (3/10) 10
    { witnessPair with pbx := -6, pby := 8 }
    (by norm_num [sep2, witnessPair]) (by norm_num) (by norm_num) (by norm_num)
  have hov := base.2.2 (by norm_num [sep2, witnessPair]) (by norm_num [sep2, witnessPair])
  exact ⟨hov.2.2.1, hov.2.2.2.1, far.2.1 (by norm_num [sep2, witnessPair])⟩

end Sim
